import Mathlib

/-!
Verification development for the AITRADINGBOT repository's technical-analysis
core: the indicator library (`client/src/lib/technicalAnalysis.ts`), the
candlestick-pattern detector (`client/src/lib/candlestickAnalysis.ts`), and the
multi-timeframe decision engine, backtest simulator and DCA calculator (two
variants of an AI-trading-strategy module).

Modelling conventions (shallow embedding):
* JavaScript `number` is modelled as `ℚ` (exact rational arithmetic; the
  source's float64 rounding is idealized away, as the specification's formulas
  are stated over exact arithmetic).  Division by zero is `0` in `ℚ`; every
  place where the source can divide by zero is noted at the definition.
* Possibly-`undefined` values are `Option ℚ` (or `Option` of a record); the
  JavaScript truthiness idioms `x || d` and `a && b && a < b` are modelled by
  the explicit helpers `jsOrQ` and `optLt`/`optGt` below (`0`, `NaN` and
  `undefined` are falsy; only `0`/`undefined` can occur here).
* JavaScript object maps (`Record<string, T>`) are association lists iterated
  in insertion order, with unique keys, looked up by `jsLookup`.
* `Array.prototype.sort(cmp)` (stable since ES2019) is modelled by the stable
  insertion sort `jsSortStable le` with `le a b ↔ cmp a b ≤ 0`.
* `Math.round x` is `⌊x + 1/2⌋` (ties toward +∞), `jsRound`.
* `Math.sqrt` and `Math.pow 1.5 ·` are real-valued and irrational in general;
  they are abstracted as explicit function parameters (`jsSqrt`, `pow15`) of
  the definitions that mention them.  No claim in this development depends on
  their values, and theorems quantify over the parameter.
* `Number.prototype.toFixed 1` and default number-to-string conversion are
  modelled by `toFixed1` / `qToString`; they occur only inside human-readable
  reasoning strings, which no claim inspects.
* `Date`-valued timestamp fields (`timestamp: new Date()`, `lastUpdated`) are
  wall-clock reads external to the algorithm and are omitted from the decision
  records.
Only the functions reachable from the claims are embedded; the web UI, HTTP
layer, exchange clients, GPU monitor and prompt generator carry no claims.
-/

/-- JavaScript `x || d` for a possibly-undefined number `x`: `undefined` and
`0` are falsy and fall back to `d`. -/
def jsOrQ (x : Option ℚ) (d : ℚ) : ℚ :=
  match x with
  | none => d
  | some v => if v = 0 then d else v

/-- JavaScript `a && b && a < b` for possibly-undefined numbers: false when
either operand is `undefined` or `0`. -/
def optLt (a b : Option ℚ) : Bool :=
  match a, b with
  | some x, some y => x ≠ 0 && y ≠ 0 && x < y
  | _, _ => false

/-- JavaScript `a && b && a > b` for possibly-undefined numbers. -/
def optGt (a b : Option ℚ) : Bool :=
  match a, b with
  | some x, some y => x ≠ 0 && y ≠ 0 && x > y
  | _, _ => false

/-- `arr[arr.length - 1]` on an array whose entries may be `undefined`. -/
def lastElem (l : List (Option ℚ)) : Option ℚ :=
  l.getLast?.join

/-- The last `n` elements of a list (`slice(-n)` for `n ≥ 1`). -/
def takeLastN {α : Type} (n : ℕ) (l : List α) : List α :=
  l.drop (l.length - n)

/-- JavaScript `slice(-n)`: `slice(-0)` is the whole array. -/
def jsSliceLast {α : Type} (n : ℕ) (l : List α) : List α :=
  if n = 0 then l else takeLastN n l

/-- `Math.round`: round half toward positive infinity. -/
def jsRound (q : ℚ) : ℤ := ⌊q + 1/2⌋

/-- `Number.prototype.toFixed 1` (round to nearest away-from-smaller tie rule
of the ECMAScript spec; the `-0.0` corner of negative values rounding to zero
is rendered without the sign). -/
def toFixed1 (q : ℚ) : String :=
  let n : ℤ := ⌊q * 10 + 1/2⌋
  (if n < 0 then "-" else "") ++ toString (n.natAbs / 10) ++ "." ++ toString (n.natAbs % 10)

/-- Default JavaScript number-to-string coercion, approximated by the rational
`num/den` rendering (used only inside reasoning strings, never inspected). -/
def qToString (q : ℚ) : String :=
  toString q.num ++ (if q.den = 1 then "" else "/" ++ toString q.den)

/-- Insert `x` into `l` before the first element `y` with `le x y`; together
with `jsSortStable` this is a stable sort, matching `Array.prototype.sort`
with a comparator `cmp` where `le a b ↔ cmp a b ≤ 0`. -/
def jsInsert {α : Type} (le : α → α → Bool) (x : α) : List α → List α
  | [] => [x]
  | y :: ys => if le x y then x :: y :: ys else y :: jsInsert le x ys

/-- Stable insertion sort modelling `Array.prototype.sort(cmp)`. -/
def jsSortStable {α : Type} (le : α → α → Bool) : List α → List α
  | [] => []
  | x :: xs => jsInsert le x (jsSortStable le xs)

/-- `candles[i]` under the in-loop guarantee `i < candles.length` (out-of-range
access does not occur in the embedded code paths). -/
def getC {α : Type} [Inhabited α] (l : List α) (i : ℕ) : α :=
  l.getD i default

/-- OHLCV candle (`CandleData`); `time` is the epoch-milliseconds timestamp. -/
structure Candle where
  time : ℚ
  open_price : ℚ
  high : ℚ
  low : ℚ
  close : ℚ
  volume : ℚ
  deriving DecidableEq

instance : Inhabited Candle := ⟨⟨0, 0, 0, 0, 0, 0⟩⟩

/-! ### Indicator library — `client/src/lib/technicalAnalysis.ts` -/

/-- Close-to-close price changes: `closePrices[i] - closePrices[i-1]` for
`i = 1 .. length-1` (the loop of `calculateRSI`). -/
def priceChanges (closes : List ℚ) : List ℚ :=
  List.zipWith (fun prev cur => cur - prev) closes closes.tail

/-- One RSI output value from the running average gain/loss: `100` when
`avgLoss = 0`, else `100 - 100/(1 + avgGain/avgLoss)`. -/
def rsiStepVal (avgGain avgLoss : ℚ) : ℚ :=
  if avgLoss = 0 then 100 else 100 - 100 / (1 + avgGain / avgLoss)

/-- The Wilder-smoothing loop of `calculateRSI`: for each later (gain, loss)
pair update `avg = (avg*(period-1) + value)/period` and emit an RSI value. -/
def rsiRec (period : ℕ) (avgGain avgLoss : ℚ) : List (ℚ × ℚ) → List ℚ
  | [] => []
  | (g, l) :: rest =>
    let ag := (avgGain * ((period : ℚ) - 1) + g) / period
    let al := (avgLoss * ((period : ℚ) - 1) + l) / period
    rsiStepVal ag al :: rsiRec period ag al rest

/-- `calculateRSI` (technicalAnalysis.ts): series shorter than `period + 1`
yield an all-`50` array of the input length; otherwise the output is `period`
undefined entries followed by the seeded-then-smoothed RSI values. -/
def calculateRSI (candles : List Candle) (period : ℕ) : List (Option ℚ) :=
  if candles.length < period + 1 then
    List.replicate candles.length (some 50)
  else
    let closePrices := candles.map (·.close)
    let changes := priceChanges closePrices
    let gains := changes.map (fun ch => if ch > 0 then ch else 0)
    let losses := changes.map (fun ch => if ch < 0 then |ch| else 0)
    let avgGain := (gains.take period).sum / period
    let avgLoss := (losses.take period).sum / period
    let rsiValues :=
      rsiStepVal avgGain avgLoss ::
        rsiRec period avgGain avgLoss ((gains.drop period).zip (losses.drop period))
    List.replicate period none ++ rsiValues.map some

/-- The EMA recurrence `ema[i] = (price[i] - ema[i-1]) * k + ema[i-1]`. -/
def emaFrom (k : ℚ) (prev : ℚ) : List ℚ → List ℚ
  | [] => []
  | p :: ps =>
    let e := (p - prev) * k + prev
    e :: emaFrom k e ps

/-- `calculateEMA` (technicalAnalysis.ts): indices below `period - 1` are
undefined, index `period - 1` holds the SMA seed of the first `period` prices,
later indices follow the recurrence with `k = 2/(period+1)`.  (When the input
is shorter than `period` the JavaScript assignment `ema[period-1] = sma`
extends the array to length `period`, with `sma` the sum of all available
prices divided by `period`; the formula below reproduces that, too.) -/
def calculateEMA (prices : List ℚ) (period : ℕ) : List (Option ℚ) :=
  let sma := (prices.take period).sum / period
  let k := 2 / ((period : ℚ) + 1)
  List.replicate (period - 1) none ++ some sma :: (emaFrom k sma (prices.drop period)).map some

/-- True range of a candle given the previous candle:
`max(high-low, |high-prevClose|, |low-prevClose|)`. -/
def trueRange (prev cur : Candle) : ℚ :=
  max (cur.high - cur.low) (max |cur.high - prev.close| |cur.low - prev.close|)

/-- The per-step true ranges of a series (index `i = 1 .. length-1`). -/
def trueRangeList (candles : List Candle) : List ℚ :=
  List.zipWith trueRange candles candles.tail

/-- `calculateATR` (technicalAnalysis.ts, client copy): returns `0` when fewer
than `period` candles are supplied; otherwise sums `slice(-period)` of the
true-range list — which has only `length - 1` entries — and divides by
`period`. -/
def calculateATRclient (candles : List Candle) (period : ℕ) : ℚ :=
  if candles.length < period then 0
  else (jsSliceLast period (trueRangeList candles)).sum / period

/-- `calculateATR` (server module copy): returns `1` when fewer than
`period + 1` candles are supplied; otherwise its loop `i = 1 .. period` sums
the true ranges of the pairs `(candles[len-i-1], candles[len-i])`, i.e. the
consecutive-pair true ranges of the last `period + 1` candles, and divides by
`period`. -/
def calculateATRserver (candles : List Candle) (period : ℕ) : ℚ :=
  if candles.length < period + 1 then 1
  else (trueRangeList (candles.drop (candles.length - (period + 1)))).sum / period

/-- `calculateVolatility` (server module): standard deviation of the last
`period` close-to-close returns, clamped to `[0.005, 0.05]`; `0.01` when fewer
than `period` candles.  `Math.sqrt` is the abstracted parameter `jsSqrt`. -/
def calculateVolatility (jsSqrt : ℚ → ℚ) (candles : List Candle) (period : ℕ) : ℚ :=
  if candles.length < period then 0.01
  else
    let recentCandles := jsSliceLast period candles
    let returns := List.zipWith (fun prev cur => (cur.close - prev.close) / prev.close)
      recentCandles recentCandles.tail
    let mean := returns.sum / (returns.length : ℚ)
    let squaredDiffs := returns.map (fun v => (v - mean) ^ 2)
    let variance := squaredDiffs.sum / (squaredDiffs.length : ℚ)
    let volatility := jsSqrt variance
    max 0.005 (min 0.05 volatility)

/-! ### Candlestick pattern detector — `client/src/lib/candlestickAnalysis.ts` -/

/-- The candlestick pattern catalog (`enum CandlestickPattern`). -/
inductive CandlestickPattern
  | BULLISH_ENGULFING | BEARISH_ENGULFING | HAMMER | INVERTED_HAMMER
  | MORNING_STAR | EVENING_STAR | DOJI | DARK_CLOUD_COVER | PIERCING_LINE
  | THREE_WHITE_SOLDIERS | THREE_BLACK_CROWS | BULLISH_HARAMI | BEARISH_HARAMI
  | SHOOTING_STAR | HANGING_MAN | TWEEZER_TOP | TWEEZER_BOTTOM | SPINNING_TOP
  | INSIDE_BAR
  deriving DecidableEq

/-- The string value of a `CandlestickPattern` enum member (used when a
pattern name is interpolated into a reasoning string). -/
def patternName : CandlestickPattern → String
  | .BULLISH_ENGULFING => "BULLISH_ENGULFING"
  | .BEARISH_ENGULFING => "BEARISH_ENGULFING"
  | .HAMMER => "HAMMER"
  | .INVERTED_HAMMER => "INVERTED_HAMMER"
  | .MORNING_STAR => "MORNING_STAR"
  | .EVENING_STAR => "EVENING_STAR"
  | .DOJI => "DOJI"
  | .DARK_CLOUD_COVER => "DARK_CLOUD_COVER"
  | .PIERCING_LINE => "PIERCING_LINE"
  | .THREE_WHITE_SOLDIERS => "THREE_WHITE_SOLDIERS"
  | .THREE_BLACK_CROWS => "THREE_BLACK_CROWS"
  | .BULLISH_HARAMI => "BULLISH_HARAMI"
  | .BEARISH_HARAMI => "BEARISH_HARAMI"
  | .SHOOTING_STAR => "SHOOTING_STAR"
  | .HANGING_MAN => "HANGING_MAN"
  | .TWEEZER_TOP => "TWEEZER_TOP"
  | .TWEEZER_BOTTOM => "TWEEZER_BOTTOM"
  | .SPINNING_TOP => "SPINNING_TOP"
  | .INSIDE_BAR => "INSIDE_BAR"

/-- Trend classification (`enum Trend`). -/
inductive Trend
  | BULLISH | BEARISH | NEUTRAL
  deriving DecidableEq

/-- Bilingual pattern description. -/
structure PatternDescription where
  en : String
  vi : String
  deriving DecidableEq

/-- `PatternResult`: one detected pattern occurrence. -/
structure PatternResult where
  pattern : CandlestickPattern
  significance : ℚ
  trend : Trend
  candles : List ℕ
  description : PatternDescription
  deriving DecidableEq

/-- `isDoji`: the body is under 5% of the candle's total extent. -/
def isDoji (candle : Candle) : Bool :=
  let bodySize := |candle.open_price - candle.close|
  let totalSize := candle.high - candle.low
  totalSize > 0 && bodySize / totalSize < 0.05

/-- `isBullishEngulfing`. -/
def isBullishEngulfing (current previous : Candle) : Bool :=
  let isPreviousBearish := previous.close < previous.open_price
  let isCurrentBullish := current.close > current.open_price
  let isEngulfing := current.open_price < previous.close && current.close > previous.open_price
  isPreviousBearish && isCurrentBullish && isEngulfing

/-- `isBearishEngulfing`. -/
def isBearishEngulfing (current previous : Candle) : Bool :=
  let isPreviousBullish := previous.close > previous.open_price
  let isCurrentBearish := current.close < current.open_price
  let isEngulfing := current.open_price > previous.close && current.close < previous.open_price
  isPreviousBullish && isCurrentBearish && isEngulfing

/-- `isHammer`: lower shadow at least twice the body, upper shadow at most a
tenth of the body. -/
def isHammer (candle : Candle) : Bool :=
  let bodySize := |candle.open_price - candle.close|
  let lowerShadow := min candle.open_price candle.close - candle.low
  let upperShadow := candle.high - max candle.open_price candle.close
  lowerShadow ≥ 2 * bodySize && upperShadow ≤ 0.1 * bodySize

/-- `isInvertedHammer`. -/
def isInvertedHammer (candle : Candle) : Bool :=
  let bodySize := |candle.open_price - candle.close|
  let lowerShadow := min candle.open_price candle.close - candle.low
  let upperShadow := candle.high - max candle.open_price candle.close
  upperShadow ≥ 2 * bodySize && lowerShadow ≤ 0.1 * bodySize

/-- `isMorningStar` at index `i` (requires `i ≥ 2`). -/
def isMorningStar (candles : List Candle) (i : ℕ) : Bool :=
  if i < 2 then false
  else
    let first := getC candles (i - 2)
    let middle := getC candles (i - 1)
    let last := getC candles i
    let isFirstBearish := first.close < first.open_price
    let isLastBullish := last.close > last.open_price
    let middleBodySize := |middle.open_price - middle.close|
    let firstBodySize := |first.open_price - first.close|
    let isMiddleSmall := middleBodySize < 0.3 * firstBodySize
    let isLastClosingHigh := last.close > (first.open_price + first.close) / 2
    isFirstBearish && isMiddleSmall && isLastBullish && isLastClosingHigh

/-- `isEveningStar` at index `i` (requires `i ≥ 2`). -/
def isEveningStar (candles : List Candle) (i : ℕ) : Bool :=
  if i < 2 then false
  else
    let first := getC candles (i - 2)
    let middle := getC candles (i - 1)
    let last := getC candles i
    let isFirstBullish := first.close > first.open_price
    let isLastBearish := last.close < last.open_price
    let middleBodySize := |middle.open_price - middle.close|
    let firstBodySize := |first.open_price - first.close|
    let isMiddleSmall := middleBodySize < 0.3 * firstBodySize
    let isLastClosingLow := last.close < (first.open_price + first.close) / 2
    isFirstBullish && isMiddleSmall && isLastBearish && isLastClosingLow

/-- `isThreeWhiteSoldiers` at index `i`. -/
def isThreeWhiteSoldiers (candles : List Candle) (i : ℕ) : Bool :=
  if i < 2 then false
  else
    let first := getC candles (i - 2)
    let second := getC candles (i - 1)
    let third := getC candles i
    let allBullish := first.close > first.open_price && second.close > second.open_price &&
      third.close > third.open_price
    let properOpening := second.open_price > first.open_price && second.open_price < first.close &&
      third.open_price > second.open_price && third.open_price < second.close
    let higherClosing := second.close > first.close && third.close > second.close
    let smallUpperShadows :=
      (first.high - first.close) < 0.2 * (first.close - first.open_price) &&
      (second.high - second.close) < 0.2 * (second.close - second.open_price) &&
      (third.high - third.close) < 0.2 * (third.close - third.open_price)
    allBullish && properOpening && higherClosing && smallUpperShadows

/-- `isThreeBlackCrows` at index `i`. -/
def isThreeBlackCrows (candles : List Candle) (i : ℕ) : Bool :=
  if i < 2 then false
  else
    let first := getC candles (i - 2)
    let second := getC candles (i - 1)
    let third := getC candles i
    let allBearish := first.close < first.open_price && second.close < second.open_price &&
      third.close < third.open_price
    let properOpening := second.open_price < first.open_price && second.open_price > first.close &&
      third.open_price < second.open_price && third.open_price > second.close
    let lowerClosing := second.close < first.close && third.close < second.close
    let smallLowerShadows :=
      (first.close - first.low) < 0.2 * (first.open_price - first.close) &&
      (second.close - second.low) < 0.2 * (second.open_price - second.close) &&
      (third.close - third.low) < 0.2 * (third.open_price - third.close)
    allBearish && properOpening && lowerClosing && smallLowerShadows

/-- The fixed base significance table of `calculateSignificance` (the `|| 50`
fallback of the source is unreachable: the table is total). -/
def baseSignificance : CandlestickPattern → ℚ
  | .BULLISH_ENGULFING => 75
  | .BEARISH_ENGULFING => 75
  | .HAMMER => 65
  | .INVERTED_HAMMER => 60
  | .MORNING_STAR => 85
  | .EVENING_STAR => 85
  | .DOJI => 40
  | .DARK_CLOUD_COVER => 65
  | .PIERCING_LINE => 65
  | .THREE_WHITE_SOLDIERS => 90
  | .THREE_BLACK_CROWS => 90
  | .BULLISH_HARAMI => 60
  | .BEARISH_HARAMI => 60
  | .SHOOTING_STAR => 70
  | .HANGING_MAN => 70
  | .TWEEZER_TOP => 65
  | .TWEEZER_BOTTOM => 65
  | .SPINNING_TOP => 35
  | .INSIDE_BAR => 55

/-- `getPatternTrend`: the inherent trend bias of each pattern. -/
def getPatternTrend : CandlestickPattern → Trend
  | .BULLISH_ENGULFING => .BULLISH
  | .HAMMER => .BULLISH
  | .MORNING_STAR => .BULLISH
  | .PIERCING_LINE => .BULLISH
  | .THREE_WHITE_SOLDIERS => .BULLISH
  | .BULLISH_HARAMI => .BULLISH
  | .TWEEZER_BOTTOM => .BULLISH
  | .BEARISH_ENGULFING => .BEARISH
  | .EVENING_STAR => .BEARISH
  | .DARK_CLOUD_COVER => .BEARISH
  | .THREE_BLACK_CROWS => .BEARISH
  | .BEARISH_HARAMI => .BEARISH
  | .SHOOTING_STAR => .BEARISH
  | .HANGING_MAN => .BEARISH
  | .TWEEZER_TOP => .BEARISH
  | .DOJI => .NEUTRAL
  | .INVERTED_HAMMER => .NEUTRAL
  | .SPINNING_TOP => .NEUTRAL
  | .INSIDE_BAR => .NEUTRAL

/-- `calculateSignificance`: base weight, `+10` when the pattern's bias
opposes the prevailing trend, `+10` when current volume exceeds 1.5× the
previous candle's volume, clamped to `[0, 100]`.  (The source's `volume || 0`
reads are the identity on the numeric `volume` field.) -/
def calculateSignificance (pattern : CandlestickPattern) (candles : List Candle)
    (index : ℕ) (prevTrend : Trend) : ℚ :=
  let significance := baseSignificance pattern
  let patternTrend := getPatternTrend pattern
  let significance :=
    if patternTrend ≠ Trend.NEUTRAL ∧ patternTrend ≠ prevTrend then significance + 10
    else significance
  let currentVolume := (getC candles index).volume
  let significance :=
    if index > 0 then
      let prevVolume := (getC candles (index - 1)).volume
      if currentVolume > prevVolume * 1.5 then significance + 10 else significance
    else significance
  min 100 (max 0 significance)

/-- `getPatternDescription` (bilingual, constant strings). -/
def getPatternDescription : CandlestickPattern → PatternDescription
  | .BULLISH_ENGULFING =>
    ⟨"A bullish reversal pattern where a large green candle completely engulfs the previous red candle, signaling potential uptrend.",
     "Mẫu hình đảo chiều tăng giá với nến xanh lớn bao trùm hoàn toàn nến đỏ trước đó, báo hiệu xu hướng tăng tiềm năng."⟩
  | .BEARISH_ENGULFING =>
    ⟨"A bearish reversal pattern where a large red candle completely engulfs the previous green candle, signaling potential downtrend.",
     "Mẫu hình đảo chiều giảm giá với nến đỏ lớn bao trùm hoàn toàn nến xanh trước đó, báo hiệu xu hướng giảm tiềm năng."⟩
  | .HAMMER =>
    ⟨"A bullish reversal pattern with a small body and a long lower shadow, indicating potential support level and uptrend.",
     "Mẫu hình đảo chiều tăng giá với thân nhỏ và bóng dưới dài, cho thấy vùng hỗ trợ tiềm năng và xu hướng tăng."⟩
  | .INVERTED_HAMMER =>
    ⟨"A potential reversal pattern with a small body and a long upper shadow, may indicate bullish reversal after downtrend.",
     "Mẫu hình đảo chiều tiềm năng với thân nhỏ và bóng trên dài, có thể báo hiệu đảo chiều tăng sau xu hướng giảm."⟩
  | .MORNING_STAR =>
    ⟨"A strong bullish reversal pattern consisting of three candles: a large bearish, a small-bodied, and a large bullish candle.",
     "Mẫu hình đảo chiều tăng mạnh gồm ba nến: một nến giảm lớn, một nến thân nhỏ và một nến tăng lớn."⟩
  | .EVENING_STAR =>
    ⟨"A strong bearish reversal pattern consisting of three candles: a large bullish, a small-bodied, and a large bearish candle.",
     "Mẫu hình đảo chiều giảm mạnh gồm ba nến: một nến tăng lớn, một nến thân nhỏ và một nến giảm lớn."⟩
  | .DOJI =>
    ⟨"A neutral pattern with a very small or non-existent body, indicating market indecision and potential reversal.",
     "Mẫu hình trung tính với thân rất nhỏ hoặc không có thân, chỉ ra sự lưỡng lự của thị trường và khả năng đảo chiều."⟩
  | .THREE_WHITE_SOLDIERS =>
    ⟨"A strong bullish reversal pattern consisting of three consecutive bullish candles, each closing higher than the previous.",
     "Mẫu hình đảo chiều tăng mạnh gồm ba nến tăng liên tiếp, mỗi nến đóng cửa cao hơn nến trước."⟩
  | .THREE_BLACK_CROWS =>
    ⟨"A strong bearish reversal pattern consisting of three consecutive bearish candles, each closing lower than the previous.",
     "Mẫu hình đảo chiều giảm mạnh gồm ba nến giảm liên tiếp, mỗi nến đóng cửa thấp hơn nến trước."⟩
  | _ =>
    ⟨"Candlestick pattern indicating potential market movement.",
     "Mẫu hình nến chỉ báo tiềm năng chuyển động thị trường."⟩

/-- `determineCurrentTrend`: compare the close `lookback` candles ago with the
latest close; over ±3% is bullish/bearish.  (`Math.max(0, length - lookback)`
is truncated natural subtraction.) -/
def determineCurrentTrend (candles : List Candle) (lookback : ℕ := 10) : Trend :=
  if candles.length < lookback then Trend.NEUTRAL
  else
    let start := candles.length - lookback
    let startPrice := (getC candles start).close
    let endPrice := (getC candles (candles.length - 1)).close
    let priceChange := (endPrice - startPrice) / startPrice * 100
    if priceChange > 3 then Trend.BULLISH
    else if priceChange < -3 then Trend.BEARISH
    else Trend.NEUTRAL

/-- The pattern checks performed at one loop index `i` of
`analyzeCandlestickPatterns`, in source order (the source's extra `i >= 2`
guards before the three-candle patterns are subsumed by the predicates'
own `index < 2` checks). -/
def patternsAt (candles : List Candle) (prevTrend : Trend) (i : ℕ) : List PatternResult :=
  let current := getC candles i
  let previous := getC candles (i - 1)
  (if isDoji current then
    [⟨.DOJI, calculateSignificance .DOJI candles i prevTrend, .NEUTRAL, [i],
      getPatternDescription .DOJI⟩] else [])
  ++ (if isBullishEngulfing current previous then
    [⟨.BULLISH_ENGULFING, calculateSignificance .BULLISH_ENGULFING candles i prevTrend,
      .BULLISH, [i - 1, i], getPatternDescription .BULLISH_ENGULFING⟩] else [])
  ++ (if isBearishEngulfing current previous then
    [⟨.BEARISH_ENGULFING, calculateSignificance .BEARISH_ENGULFING candles i prevTrend,
      .BEARISH, [i - 1, i], getPatternDescription .BEARISH_ENGULFING⟩] else [])
  ++ (if isHammer current then
    [⟨.HAMMER, calculateSignificance .HAMMER candles i prevTrend, .BULLISH, [i],
      getPatternDescription .HAMMER⟩] else [])
  ++ (if isInvertedHammer current then
    [⟨.INVERTED_HAMMER, calculateSignificance .INVERTED_HAMMER candles i prevTrend,
      .NEUTRAL, [i], getPatternDescription .INVERTED_HAMMER⟩] else [])
  ++ (if isMorningStar candles i then
    [⟨.MORNING_STAR, calculateSignificance .MORNING_STAR candles i prevTrend,
      .BULLISH, [i - 2, i - 1, i], getPatternDescription .MORNING_STAR⟩] else [])
  ++ (if isEveningStar candles i then
    [⟨.EVENING_STAR, calculateSignificance .EVENING_STAR candles i prevTrend,
      .BEARISH, [i - 2, i - 1, i], getPatternDescription .EVENING_STAR⟩] else [])
  ++ (if isThreeWhiteSoldiers candles i then
    [⟨.THREE_WHITE_SOLDIERS, calculateSignificance .THREE_WHITE_SOLDIERS candles i prevTrend,
      .BULLISH, [i - 2, i - 1, i], getPatternDescription .THREE_WHITE_SOLDIERS⟩] else [])
  ++ (if isThreeBlackCrows candles i then
    [⟨.THREE_BLACK_CROWS, calculateSignificance .THREE_BLACK_CROWS candles i prevTrend,
      .BEARISH, [i - 2, i - 1, i], getPatternDescription .THREE_BLACK_CROWS⟩] else [])

/-- `analyzeCandlestickPatterns`: scan indices `2 .. length-1`, collect the
detected patterns, and sort them by descending significance (stable). -/
def analyzeCandlestickPatterns (candles : List Candle) : List PatternResult :=
  if candles.length < 3 then []
  else
    let prevTrend := determineCurrentTrend candles
    let results := (List.range' 2 (candles.length - 2)).foldl
      (fun acc i => acc ++ patternsAt candles prevTrend i) []
    jsSortStable (fun a b => decide (b.significance ≤ a.significance)) results

/-- The per-timeframe pattern weight table of `incorporateCandlestickAnalysis`
(the `|| 0.5` default folded in: no table value is falsy). -/
def patternTimeframeWeight (tf : String) : ℚ :=
  if tf = "1h" then 0.6
  else if tf = "4h" then 0.85
  else if tf = "1d" then 1.0
  else if tf = "1w" then 1.2
  else 0.5

/-- The per-pattern adjustment step of `incorporateCandlestickAnalysis`. -/
def incorporateStep (weight currentConfidence : ℚ) (acc : ℚ) (p : PatternResult) : ℚ :=
  let adjustmentBase := (p.significance - 60) / 100
  if p.trend = Trend.BULLISH ∧ currentConfidence > 0 then
    acc + adjustmentBase * weight
  else if p.trend = Trend.BEARISH ∧ currentConfidence < 0 then
    acc - adjustmentBase * weight
  else if (p.trend = Trend.BULLISH ∧ currentConfidence < 0) ∨
          (p.trend = Trend.BEARISH ∧ currentConfidence > 0) then
    acc - adjustmentBase * weight * 0.5
  else acc

/-- `incorporateCandlestickAnalysis`: keep the top 3 patterns with
significance above 60, accumulate a confidence adjustment, clamp it to
`[-0.25, 0.25]`, and clamp the adjusted confidence to `[-1, 1]`.  Returns
`(adjustedConfidence, supportingPatterns)`. -/
def incorporateCandlestickAnalysis (patterns : List PatternResult) (timeframe : String)
    (currentConfidence : ℚ) : ℚ × List PatternResult :=
  if patterns.length = 0 then (currentConfidence, [])
  else
    let weight := patternTimeframeWeight timeframe
    let significantPatterns := (patterns.filter (fun p => p.significance > 60)).take 3
    let confidenceAdjustment :=
      significantPatterns.foldl (incorporateStep weight currentConfidence) 0
    let confidenceAdjustment := max (-0.25) (min 0.25 confidenceAdjustment)
    let adjustedConfidence := currentConfidence + confidenceAdjustment
    (max (-1) (min 1 adjustedConfidence), significantPatterns)

/-! ### Multi-timeframe decision engine — the two `generateTradingDecision`
variants of the AI-trading-strategy module (variant A: max leverage 50x,
15m/1h weights 0.5/0.5; variant B: max leverage 15x, 15m/1h weights
0.15/0.3). -/

/-- Per-timeframe divergence result carried in a `MultiTimeframeAnalysis`. -/
structure DivergenceInfo where
  bullish : Bool
  bearish : Bool
  strength : ℚ
  deriving DecidableEq

/-- `MultiTimeframeAnalysis`: the per-timeframe analysis record consumed by
the decision engine (`trend` and `emaStatus` are the source's strings). -/
structure MultiTimeframeAnalysis where
  timeframe : String
  trend : String
  rsi : ℚ
  emaStatus : String
  marketStructure : List String
  volumeSupport : List ℚ
  divergence : DivergenceInfo
  confidence : ℚ
  candleData : Option (List Candle)
  candlestickPatterns : Option (List PatternResult)
  deriving DecidableEq

/-- Lookup in a JavaScript object map modelled as an association list with
unique keys (first match). -/
def jsLookup (l : List (String × MultiTimeframeAnalysis)) (k : String) :
    Option MultiTimeframeAnalysis :=
  (l.find? (fun p => p.1 = k)).map (·.2)

/-- Trading signal. -/
inductive Signal
  | BUY | SELL | NEUTRAL
  deriving DecidableEq

/-- `MarketCondition.primaryTrend` values. -/
inductive PrimaryTrend
  | BULLISH | BEARISH | NEUTRAL
  deriving DecidableEq

/-- `MarketCondition.volumeProfile` values. -/
inductive VolumeProfileTag
  | INCREASING | DECREASING | FLAT
  deriving DecidableEq

/-- `MarketCondition` (variant A only; `lastUpdated: new Date()` omitted). -/
structure MarketCondition where
  primaryTrend : PrimaryTrend
  strength : ℚ
  volatility : ℚ
  momentum : ℚ
  supports : List ℚ
  resistances : List ℚ
  volumeProfile : VolumeProfileTag
  timeframe : String

/-- `OptimizedParameters` (variant A only). -/
structure OptimizedParameters where
  stopLossPercentage : ℚ
  takeProfitPercentage : ℚ
  entryConfidenceThreshold : ℚ
  leverageMultiplier : ℚ
  durationHoldHours : ℚ
  trailingStopActivationPercentage : ℚ
  useMarketOrders : Bool
  tradesPerDay : ℚ

/-- The `indicators` bag attached to a decision. -/
structure IndicatorsBag where
  rsi : ℚ
  emaStatus : String
  marketStructure : List String
  volumeSupport : List ℚ
  divergence : DivergenceInfo
  candlestickPatterns : List PatternResult

/-- `AiTradingDecision` as returned by variant A (`timestamp: new Date()`
omitted). -/
structure AiTradingDecisionA where
  signal : Signal
  confidence : ℚ
  timeframe : String
  price : ℚ
  reasoning : List String
  supportingIndicators : List String
  indicators : IndicatorsBag
  leverageSuggestion : ℚ
  stopLossSuggestion : ℚ
  takeProfitSuggestion : ℚ
  optimizedParameters : OptimizedParameters
  marketCondition : MarketCondition

/-- `AiTradingDecision` as returned by variant B (no optimized-parameter or
market-condition block). -/
structure AiTradingDecisionB where
  signal : Signal
  confidence : ℚ
  timeframe : String
  price : ℚ
  reasoning : List String
  supportingIndicators : List String
  indicators : IndicatorsBag
  leverageSuggestion : ℚ
  stopLossSuggestion : ℚ
  takeProfitSuggestion : ℚ

/-- Variant A's timeframe weight table, with the `|| 0.1` unknown-label
default folded in (no table entry is falsy). -/
def timeframeWeightsA (tf : String) : ℚ :=
  if tf = "1m" then 0.05
  else if tf = "5m" then 0.1
  else if tf = "15m" then 0.5
  else if tf = "30m" then 0.2
  else if tf = "1h" then 0.5
  else if tf = "4h" then 0.6
  else if tf = "1d" then 0.8
  else if tf = "1w" then 1.0
  else 0.1

/-- Variant B's timeframe weight table, with the `|| 0.1` default folded in. -/
def timeframeWeightsB (tf : String) : ℚ :=
  if tf = "1m" then 0.05
  else if tf = "5m" then 0.1
  else if tf = "15m" then 0.15
  else if tf = "30m" then 0.2
  else if tf = "1h" then 0.3
  else if tf = "4h" then 0.7
  else if tf = "1d" then 1.0
  else if tf = "1w" then 1.2
  else 0.1

/-- Variant A's default leverage bounds (`minLeverage = 10`,
`maxLeverage = 50`). -/
def defaultMinLeverageA : ℚ := 10

/-- Variant A's default maximum leverage (50x). -/
def defaultMaxLeverageA : ℚ := 50

/-- Variant B's default minimum leverage (10x). -/
def defaultMinLeverageB : ℚ := 10

/-- Variant B's default maximum leverage (15x). -/
def defaultMaxLeverageB : ℚ := 15

/-- Accumulator of the weighted-confidence loop shared by both variants:
running weighted sum and total weight, the dominant timeframe so far, and the
entries as mutated by the loop (the loop stores the supporting patterns back
into each analysis object). -/
structure FuseAcc where
  weightedConfidence : ℚ
  totalWeight : ℚ
  dominantTimeframe : String
  highestConfidenceValue : ℚ
  updated : List (String × MultiTimeframeAnalysis)

/-- One iteration of the weighted-confidence loop over
`Object.entries(analyses)`: accumulate `(confidence - 0.5) * weight`, track
the dominant timeframe, and — when the timeframe carries candle data whose
pattern scan is non-empty — add the candlestick confidence adjustment and
store the supporting patterns into the analysis. -/
def fuseStep (weights : String → ℚ) (analyses : List (String × MultiTimeframeAnalysis))
    (acc : FuseAcc) (e : String × MultiTimeframeAnalysis) : FuseAcc :=
  let timeframe := e.1
  let analysis := e.2
  let weight := weights timeframe
  let wc := acc.weightedConfidence + (analysis.confidence - 0.5) * weight
  let tw := acc.totalWeight + weight
  let dom :=
    if |analysis.confidence - 0.5| > acc.highestConfidenceValue then timeframe
    else acc.dominantTimeframe
  let best :=
    if |analysis.confidence - 0.5| > acc.highestConfidenceValue then |analysis.confidence - 0.5|
    else acc.highestConfidenceValue
  match (jsLookup analyses timeframe).bind (·.candleData) with
  | some candleDataForTimeframe =>
    let candlestickPatterns := analyzeCandlestickPatterns candleDataForTimeframe
    if candlestickPatterns.length > 0 then
      let res := incorporateCandlestickAnalysis candlestickPatterns timeframe analysis.confidence
      let confidenceAdjustment := (res.1 - analysis.confidence) * weight
      { weightedConfidence := wc + confidenceAdjustment, totalWeight := tw,
        dominantTimeframe := dom, highestConfidenceValue := best,
        updated := acc.updated ++ [(timeframe, { analysis with candlestickPatterns := some res.2 })] }
    else
      { weightedConfidence := wc, totalWeight := tw, dominantTimeframe := dom,
        highestConfidenceValue := best, updated := acc.updated ++ [e] }
  | none =>
    { weightedConfidence := wc, totalWeight := tw, dominantTimeframe := dom,
      highestConfidenceValue := best, updated := acc.updated ++ [e] }

/-- The reasoning strings pushed for a BUY signal (identical in both
variants), sourced from the dominant timeframe's analysis. -/
def buyReasons (finalConfidence : ℚ) (dominantTimeframe : String)
    (d : MultiTimeframeAnalysis) : List String :=
  ["Strong bullish signal with " ++ toFixed1 (finalConfidence * 100) ++ "% confidence"]
  ++ (if d.rsi < 40 then
      ["RSI is oversold at " ++ toFixed1 d.rsi ++ " on " ++ dominantTimeframe ++ " timeframe"]
    else [])
  ++ (if d.emaStatus = "bullish" then
      ["EMAs aligned bullishly on " ++ dominantTimeframe ++ " timeframe"] else [])
  ++ (if d.divergence.bullish then
      ["Bullish divergence detected with " ++ toFixed1 d.divergence.strength ++ "% strength"]
    else [])
  ++ (if "Higher High & Higher Low" ∈ d.marketStructure then
      ["Market structure shows higher highs and higher lows"] else [])
  ++ (if "BOS Formation" ∈ d.marketStructure then
      ["Break of structure detected, potential trend reversal"] else [])
  ++ (if "SMC Valid" ∈ d.marketStructure then
      ["Smart Money Concept validation: price at institutional interest area"] else [])
  ++ (match (d.candlestickPatterns.getD []).filter (fun p => p.trend = Trend.BULLISH) with
      | [] => []
      | topPattern :: _ =>
        ["Detected " ++ patternName topPattern.pattern ++ " candlestick pattern (" ++
          qToString topPattern.significance ++ "% strength)"])

/-- The reasoning strings pushed for a SELL signal (identical in both
variants). -/
def sellReasons (finalConfidence : ℚ) (dominantTimeframe : String)
    (d : MultiTimeframeAnalysis) : List String :=
  ["Strong bearish signal with " ++ toFixed1 ((1 - finalConfidence) * 100) ++ "% confidence"]
  ++ (if d.rsi > 60 then
      ["RSI is overbought at " ++ toFixed1 d.rsi ++ " on " ++ dominantTimeframe ++ " timeframe"]
    else [])
  ++ (if d.emaStatus = "bearish" then
      ["EMAs aligned bearishly on " ++ dominantTimeframe ++ " timeframe"] else [])
  ++ (if d.divergence.bearish then
      ["Bearish divergence detected with " ++ toFixed1 d.divergence.strength ++ "% strength"]
    else [])
  ++ (if "Lower High & Lower Low" ∈ d.marketStructure then
      ["Market structure shows lower highs and lower lows"] else [])
  ++ (if "BOS Formation" ∈ d.marketStructure then
      ["Break of structure detected, potential trend reversal"] else [])
  ++ (if "Bull Trap" ∈ d.marketStructure then
      ["Bull trap detected, false breakout to the upside"] else [])
  ++ (match (d.candlestickPatterns.getD []).filter (fun p => p.trend = Trend.BEARISH) with
      | [] => []
      | topPattern :: _ =>
        ["Detected " ++ patternName topPattern.pattern ++ " candlestick pattern (" ++
          qToString topPattern.significance ++ "% strength)"])

/-- The reasoning strings for a NEUTRAL signal (identical in both variants). -/
def neutralReasons (finalConfidence : ℚ) : List String :=
  ["No clear signal detected, market is in consolidation",
   "Confidence level too low at " ++ toFixed1 (finalConfidence * 100) ++ "%"]

/-- The `supportingIndicators` list built after signal selection (identical in
both variants): timeframes whose confidence exceeds 0.65 (BUY) or falls below
0.35 (SELL). -/
def supportingIndicatorsOf (signal : Signal)
    (entries : List (String × MultiTimeframeAnalysis)) : List String :=
  (entries.filter (fun e =>
    (signal = Signal.BUY ∧ e.2.confidence > 0.65) ∨
    (signal = Signal.SELL ∧ e.2.confidence < 0.35))).map
    (fun e => e.1 ++ " timeframe (" ++ toFixed1 (e.2.confidence * 100) ++ "%)")

/-- `generateTradingDecision`, variant A (max leverage default 50x, 15m/1h
weights 0.5).  Returns `none` exactly when the source would throw: the
dominant-timeframe lookup fails (e.g. an empty analyses map), which the source
hits by reading `dominantAnalysis.rsi`. -/
def generateTradingDecisionA (jsSqrt : ℚ → ℚ)
    (analyses : List (String × MultiTimeframeAnalysis)) (currentPrice : ℚ)
    (minLeverage : ℚ := defaultMinLeverageA) (maxLeverage : ℚ := defaultMaxLeverageA) :
    Option AiTradingDecisionA :=
  let acc := analyses.foldl (fuseStep timeframeWeightsA analyses) ⟨0, 0, "", 0, []⟩
  let finalConfidence := acc.weightedConfidence / acc.totalWeight + 0.5
  let elevated : Signal × List String :=
    if finalConfidence > 0.75 then (Signal.BUY, [])
    else if finalConfidence < 0.25 then (Signal.SELL, [])
    else if finalConfidence > 0.7 ∧
        (((jsLookup analyses "15m").map (·.trend) = some "bullish" ∧
          (jsLookup analyses "1h").map (·.emaStatus) = some "bullish") ∨
         ((jsLookup analyses "1h").map (·.trend) = some "bullish" ∧
          (jsLookup analyses "4h").map (·.emaStatus) = some "bullish")) then
      (Signal.BUY, ["Borderline signal elevated to BUY due to bullish alignment in shorter timeframes"])
    else if finalConfidence < 0.3 ∧
        (((jsLookup analyses "15m").map (·.trend) = some "bearish" ∧
          (jsLookup analyses "1h").map (·.emaStatus) = some "bearish") ∨
         ((jsLookup analyses "1h").map (·.trend) = some "bearish" ∧
          (jsLookup analyses "4h").map (·.emaStatus) = some "bearish")) then
      (Signal.SELL, ["Borderline signal elevated to SELL due to bearish alignment in shorter timeframes"])
    else (Signal.NEUTRAL, [])
  let signal := elevated.1
  match jsLookup acc.updated acc.dominantTimeframe with
  | none => none
  | some dominantAnalysis =>
    let reasoning := elevated.2 ++
      (match signal with
       | Signal.BUY => buyReasons finalConfidence acc.dominantTimeframe dominantAnalysis
       | Signal.SELL => sellReasons finalConfidence acc.dominantTimeframe dominantAnalysis
       | Signal.NEUTRAL => neutralReasons finalConfidence)
    let supportingIndicators := supportingIndicatorsOf signal acc.updated
    let absConfidence := if signal = Signal.BUY then finalConfidence else 1 - finalConfidence
    let leverageRange := maxLeverage - minLeverage
    let leverageSuggestion : ℚ := (jsRound (minLeverage + leverageRange * absConfidence) : ℚ)
    let stopLossSuggestion :=
      if signal = Signal.BUY then currentPrice * 0.98
      else if signal = Signal.SELL then currentPrice * 1.02 else 0
    let takeProfitSuggestion :=
      if signal = Signal.BUY then currentPrice * 1.06
      else if signal = Signal.SELL then currentPrice * 0.94 else 0
    let indicators : IndicatorsBag :=
      ⟨dominantAnalysis.rsi, dominantAnalysis.emaStatus, dominantAnalysis.marketStructure,
       dominantAnalysis.volumeSupport, dominantAnalysis.divergence,
       dominantAnalysis.candlestickPatterns.getD []⟩
    let marketCondition : MarketCondition :=
      { primaryTrend :=
          if dominantAnalysis.trend = "bullish" then PrimaryTrend.BULLISH
          else if dominantAnalysis.trend = "bearish" then PrimaryTrend.BEARISH
          else PrimaryTrend.NEUTRAL
        strength := |finalConfidence - 0.5| * 200
        volatility :=
          if dominantAnalysis.volumeSupport.length > 0 then
            calculateVolatility jsSqrt (dominantAnalysis.candleData.getD []) 14
          else 0.01
        momentum := (finalConfidence - 0.5) * 200
        supports := dominantAnalysis.volumeSupport
        resistances := []
        volumeProfile :=
          if dominantAnalysis.volumeSupport.length > 3 then VolumeProfileTag.INCREASING
          else if dominantAnalysis.volumeSupport.length > 0 then VolumeProfileTag.FLAT
          else VolumeProfileTag.DECREASING
        timeframe := acc.dominantTimeframe }
    let optimizedParameters : OptimizedParameters :=
      { stopLossPercentage :=
          if signal = Signal.BUY then marketCondition.volatility * 100 * 3
          else marketCondition.volatility * 100 * 2.5
        takeProfitPercentage :=
          if signal = Signal.BUY then marketCondition.volatility * 100 * 9
          else marketCondition.volatility * 100 * 8
        entryConfidenceThreshold := if marketCondition.strength > 75 then 0.65 else 0.75
        leverageMultiplier :=
          max minLeverage (min maxLeverage
            (leverageSuggestion * (1 - marketCondition.volatility * 5)))
        durationHoldHours := if marketCondition.primaryTrend = PrimaryTrend.NEUTRAL then 4 else 12
        trailingStopActivationPercentage := marketCondition.volatility * 100 * 4
        useMarketOrders := decide (marketCondition.primaryTrend ≠ PrimaryTrend.NEUTRAL)
        tradesPerDay :=
          if marketCondition.strength > 50 then
            (if marketCondition.strength > 75 then 10 else 7)
          else 5 }
    some
      { signal := signal
        confidence :=
          if signal = Signal.BUY then finalConfidence
          else if signal = Signal.SELL then 1 - finalConfidence else 0.5
        timeframe := acc.dominantTimeframe
        price := currentPrice
        reasoning := reasoning
        supportingIndicators := supportingIndicators
        indicators := indicators
        leverageSuggestion := leverageSuggestion
        stopLossSuggestion := stopLossSuggestion
        takeProfitSuggestion := takeProfitSuggestion
        optimizedParameters := optimizedParameters
        marketCondition := marketCondition }

/-- `generateTradingDecision`, variant B (max leverage default 15x, 15m/1h
weights 0.15/0.3; the borderline elevation checks the 1d trend and 4h EMA
status).  Returns `none` exactly when the source would throw on the
dominant-timeframe lookup. -/
def generateTradingDecisionB
    (analyses : List (String × MultiTimeframeAnalysis)) (currentPrice : ℚ)
    (minLeverage : ℚ := defaultMinLeverageB) (maxLeverage : ℚ := defaultMaxLeverageB) :
    Option AiTradingDecisionB :=
  let acc := analyses.foldl (fuseStep timeframeWeightsB analyses) ⟨0, 0, "", 0, []⟩
  let finalConfidence := acc.weightedConfidence / acc.totalWeight + 0.5
  let elevated : Signal × List String :=
    if finalConfidence > 0.75 then (Signal.BUY, [])
    else if finalConfidence < 0.25 then (Signal.SELL, [])
    else if finalConfidence > 0.7 ∧
        (jsLookup analyses "1d").map (·.trend) = some "bullish" ∧
        (jsLookup analyses "4h").map (·.emaStatus) = some "bullish" then
      (Signal.BUY, ["Borderline signal elevated to BUY due to daily and 4h bullish alignment"])
    else if finalConfidence < 0.3 ∧
        (jsLookup analyses "1d").map (·.trend) = some "bearish" ∧
        (jsLookup analyses "4h").map (·.emaStatus) = some "bearish" then
      (Signal.SELL, ["Borderline signal elevated to SELL due to daily and 4h bearish alignment"])
    else (Signal.NEUTRAL, [])
  let signal := elevated.1
  match jsLookup acc.updated acc.dominantTimeframe with
  | none => none
  | some dominantAnalysis =>
    let reasoning := elevated.2 ++
      (match signal with
       | Signal.BUY => buyReasons finalConfidence acc.dominantTimeframe dominantAnalysis
       | Signal.SELL => sellReasons finalConfidence acc.dominantTimeframe dominantAnalysis
       | Signal.NEUTRAL => neutralReasons finalConfidence)
    let supportingIndicators := supportingIndicatorsOf signal acc.updated
    let absConfidence := if signal = Signal.BUY then finalConfidence else 1 - finalConfidence
    let leverageRange := maxLeverage - minLeverage
    let leverageSuggestion : ℚ := (jsRound (minLeverage + leverageRange * absConfidence) : ℚ)
    let stopLossSuggestion :=
      if signal = Signal.BUY then currentPrice * 0.98
      else if signal = Signal.SELL then currentPrice * 1.02 else 0
    let takeProfitSuggestion :=
      if signal = Signal.BUY then currentPrice * 1.06
      else if signal = Signal.SELL then currentPrice * 0.94 else 0
    let indicators : IndicatorsBag :=
      ⟨dominantAnalysis.rsi, dominantAnalysis.emaStatus, dominantAnalysis.marketStructure,
       dominantAnalysis.volumeSupport, dominantAnalysis.divergence,
       dominantAnalysis.candlestickPatterns.getD []⟩
    some
      { signal := signal
        confidence :=
          if signal = Signal.BUY then finalConfidence
          else if signal = Signal.SELL then 1 - finalConfidence else 0.5
        timeframe := acc.dominantTimeframe
        price := currentPrice
        reasoning := reasoning
        supportingIndicators := supportingIndicators
        indicators := indicators
        leverageSuggestion := leverageSuggestion
        stopLossSuggestion := stopLossSuggestion
        takeProfitSuggestion := takeProfitSuggestion }

/-! ### Backtest simulator — `backtestStrategy` (the two source copies of this
function are textually identical in logic; one embedding covers both).  The
`aiStrategy` and `options` parameters of the source are never read in the
body and are omitted. -/

/-- Position direction, used by both the backtester and the DCA calculator. -/
inductive PositionType
  | LONG | SHORT
  deriving DecidableEq

/-- A completed backtest trade.  `entryTime`/`exitTime` are optional in the
source's type but always set on the trades it records; `dcaLevel` is never
set. -/
structure BtTrade where
  entryPrice : ℚ
  exitPrice : ℚ
  type : PositionType
  profit : ℚ
  profitPercentage : ℚ
  timestamp : ℚ
  entryTime : Option ℚ
  exitTime : Option ℚ
  dcaLevel : Option ℕ
  deriving DecidableEq

/-- The mutable loop state of `backtestStrategy`. -/
structure BtState where
  capital : ℚ
  highWaterMark : ℚ
  maxDrawdown : ℚ
  trades : List BtTrade
  inPosition : Bool
  positionType : PositionType
  entryPrice : ℚ
  entryTime : ℚ
  positionSize : ℚ
  deriving DecidableEq

/-- Sentinel for a division-free profit factor: the source stores
`Infinity` when there are profits but no losses. -/
inductive PFVal
  | fin : ℚ → PFVal
  | inf : PFVal
  deriving DecidableEq

/-- `backtestStrategy`'s return record. -/
structure BacktestResult where
  totalTrades : ℕ
  winningTrades : ℕ
  losingTrades : ℕ
  winRate : ℚ
  finalCapital : ℚ
  totalReturn : ℚ
  maxDrawdown : ℚ
  netProfit : ℚ
  netProfitPercent : ℚ
  profitFactor : PFVal
  maxDrawdownPercent : ℚ
  finalBalance : ℚ
  trades : List BtTrade
  deriving DecidableEq

/-- The exit half of one backtest-loop iteration: when in a position and the
exit rule fires (LONG: RSI > 70 or EMA8 < EMA21; SHORT: RSI < 30 or
EMA8 > EMA21), realize the leveraged PnL, update capital / high-water mark /
max drawdown, and record the trade.  (`profitPercentage` divides by
`positionSize`, which is zero only if capital was zero at entry — division by
zero is `0` here.) -/
def btExitPhase (currentRsi : ℚ) (currentEma8 currentEma21 : Option ℚ)
    (currentPrice tstamp leverage : ℚ) (s : BtState) : BtState :=
  if s.inPosition then
    let exitSignal :=
      match s.positionType with
      | PositionType.LONG => currentRsi > 70 || optLt currentEma8 currentEma21
      | PositionType.SHORT => currentRsi < 30 || optGt currentEma8 currentEma21
    if exitSignal then
      let exitPrice := currentPrice
      let profit :=
        match s.positionType with
        | PositionType.LONG => s.positionSize * (exitPrice - s.entryPrice) / s.entryPrice * leverage
        | PositionType.SHORT => s.positionSize * (s.entryPrice - exitPrice) / s.entryPrice * leverage
      let capital := s.capital + profit
      let highWaterMark := if capital > s.highWaterMark then capital else s.highWaterMark
      let maxDrawdown :=
        if capital > s.highWaterMark then s.maxDrawdown
        else
          let drawdown := (s.highWaterMark - capital) / s.highWaterMark
          if drawdown > s.maxDrawdown then drawdown else s.maxDrawdown
      { s with
        capital := capital, highWaterMark := highWaterMark, maxDrawdown := maxDrawdown,
        trades := s.trades ++
          [⟨s.entryPrice, exitPrice, s.positionType, profit, profit / s.positionSize * 100,
            tstamp, some s.entryTime, some tstamp, none⟩],
        inPosition := false }
    else s
  else s

/-- The entry half of one backtest-loop iteration: when flat and the entry
rule fires (LONG: RSI < 30 and EMA8 > EMA21; SHORT: RSI > 70 and
EMA8 < EMA21), open a position sized at `capital * riskPerTrade/100`.  (The
ATR the source computes inside the entry branch is never used and is
omitted.) -/
def btEntryPhase (currentRsi : ℚ) (currentEma8 currentEma21 : Option ℚ)
    (currentPrice tstamp riskPerTrade : ℚ) (s : BtState) : BtState :=
  if s.inPosition then s
  else
    let entrySignal : Option PositionType :=
      if currentRsi < 30 && optGt currentEma8 currentEma21 then some PositionType.LONG
      else if currentRsi > 70 && optLt currentEma8 currentEma21 then some PositionType.SHORT
      else none
    match entrySignal with
    | some t =>
      { s with
        entryPrice := currentPrice, entryTime := tstamp, positionType := t,
        positionSize := s.capital * (riskPerTrade / 100), inPosition := true }
    | none => s

/-- One iteration of the backtest loop at candle index `i` (50 ≤ i ≤ len-2):
recompute RSI(14) and EMA(8)/EMA(21) over the trailing 51-candle window, exit
an open position on the exit rule, then enter on the entry rule. -/
def btStep (candles : List Candle) (leverage riskPerTrade : ℚ) (s : BtState) (i : ℕ) :
    BtState :=
  let windowCandles := (candles.drop (i - 50)).take 51
  let rsiValues := calculateRSI windowCandles 14
  let currentRsi := jsOrQ (lastElem rsiValues) 50
  let closePrices := windowCandles.map (·.close)
  let ema8 := calculateEMA closePrices 8
  let ema21 := calculateEMA closePrices 21
  let currentEma8 := lastElem ema8
  let currentEma21 := lastElem ema21
  let currentPrice := (windowCandles.getLastD default).close
  btEntryPhase currentRsi currentEma8 currentEma21 currentPrice (getC candles i).time
    riskPerTrade
    (btExitPhase currentRsi currentEma8 currentEma21 currentPrice (getC candles i).time
      leverage s)

/-- Force-close an open position at the final close price (no high-water-mark
or drawdown update, matching the source). -/
def btForceClose (candles : List Candle) (leverage : ℚ) (s : BtState) : BtState :=
  if s.inPosition then
    let exitPrice := (candles.getLastD default).close
    let profit :=
      match s.positionType with
      | PositionType.LONG => s.positionSize * (exitPrice - s.entryPrice) / s.entryPrice * leverage
      | PositionType.SHORT => s.positionSize * (s.entryPrice - exitPrice) / s.entryPrice * leverage
    { s with
      capital := s.capital + profit,
      trades := s.trades ++
        [⟨s.entryPrice, exitPrice, s.positionType, profit, profit / s.positionSize * 100,
          (candles.getLastD default).time, some s.entryTime, some (candles.getLastD default).time,
          none⟩],
      inPosition := false }
  else s

/-- The all-zero result returned when fewer than 50 candles are supplied. -/
def zeroBacktestResult (initialCapital : ℚ) : BacktestResult :=
  { totalTrades := 0, winningTrades := 0, losingTrades := 0, winRate := 0,
    finalCapital := initialCapital, totalReturn := 0, maxDrawdown := 0, netProfit := 0,
    netProfitPercent := 0, profitFactor := PFVal.fin 0, maxDrawdownPercent := 0,
    finalBalance := initialCapital, trades := [] }

/-- `backtestStrategy`: guard for short input, run the loop over indices
`50 .. length-2`, force-close, then compute the aggregate statistics. -/
def backtestStrategy (candles : List Candle) (initialCapital leverage riskPerTrade : ℚ) :
    BacktestResult :=
  if candles.length < 50 then zeroBacktestResult initialCapital
  else
    let s0 : BtState :=
      ⟨initialCapital, initialCapital, 0, [], false, PositionType.LONG, 0, 0, 0⟩
    let sLoop := (List.range' 50 (candles.length - 51)).foldl
      (btStep candles leverage riskPerTrade) s0
    let s := btForceClose candles leverage sLoop
    let totalTrades := s.trades.length
    let winningTrades := (s.trades.filter (fun t => t.profit > 0)).length
    let losingTrades := (s.trades.filter (fun t => t.profit ≤ 0)).length
    let winRate := if totalTrades > 0 then ((winningTrades : ℚ) / totalTrades) * 100 else 0
    let totalReturn := (s.capital - initialCapital) / initialCapital * 100
    let totalProfit := ((s.trades.filter (fun t => t.profit > 0)).map (·.profit)).sum
    let totalLoss := |((s.trades.filter (fun t => t.profit ≤ 0)).map (·.profit)).sum|
    let profitFactor :=
      if totalLoss > 0 then PFVal.fin (totalProfit / totalLoss)
      else if totalProfit > 0 then PFVal.inf
      else PFVal.fin 0
    let netProfit := s.capital - initialCapital
    { totalTrades := totalTrades, winningTrades := winningTrades, losingTrades := losingTrades,
      winRate := winRate, finalCapital := s.capital, totalReturn := totalReturn,
      maxDrawdown := s.maxDrawdown, netProfit := netProfit,
      netProfitPercent := netProfit / initialCapital * 100, profitFactor := profitFactor,
      maxDrawdownPercent := s.maxDrawdown * 100, finalBalance := s.capital, trades := s.trades }

/-! ### DCA level calculator — the advanced `calculateDCALevels` (the variant
with optimization options and the final sort/renumber). -/

/-- One DCA ladder entry. -/
structure DCALevel where
  level : ℕ
  price : ℚ
  amount : ℚ
  partialTakeProfit : Option ℚ
  reinforcementThreshold : Option ℚ
  deriving DecidableEq

/-- Market-condition tag taken by the DCA calculator. -/
inductive MarketConditionTag
  | BULLISH | BEARISH | NEUTRAL | VOLATILE
  deriving DecidableEq

/-- Price-action tag of the DCA options. -/
inductive PriceActionTag
  | RANGING | TRENDING | REVERSAL | UNKNOWN
  deriving DecidableEq

/-- The `options` object of the advanced `calculateDCALevels`. -/
structure DcaOptions where
  dcaOptimization : Option Bool
  dcaAdaptivePositioning : Option Bool
  dcaVariableAmount : Option Bool
  dcaReinforcement : Option Bool
  currentPnl : Option ℚ
  priceAction : Option PriceActionTag
  supportResistance : Option (List ℚ)

/-- Renumber a ladder `1 .. N` in order (the source's post-sort loop
`result[i].level = i + 1`). -/
def renumberLevels (n : ℕ) : List DCALevel → List DCALevel
  | [] => []
  | x :: xs => { x with level := n } :: renumberLevels (n + 1) xs

/-- The support/resistance entry loop of the adaptive-positioning branch: for
each nearby level, while the ladder is not full, add an entry when the level
is between 1% and 30% away from the entry price. -/
def srLoop (useVariableAmount : Bool) (positionType : PositionType)
    (entryPrice initialSize : ℚ) (levels : ℕ) :
    List ℚ → List DCALevel → List DCALevel
  | [], acc => acc
  | level :: rest, acc =>
    if acc.length < levels then
      let percentFromEntry := |(level - entryPrice) / entryPrice|
      if percentFromEntry > 0.01 ∧ percentFromEntry < 0.30 then
        let amountMultiplier :=
          if useVariableAmount then 1 + percentFromEntry * 5
          else 1 + (acc.length : ℚ) * 0.5
        let dcaAmount := initialSize * amountMultiplier
        srLoop useVariableAmount positionType entryPrice initialSize levels rest
          (acc ++ [⟨acc.length + 1, level, dcaAmount,
            some (level * (if positionType = PositionType.LONG then 1.03 else 0.97)), none⟩])
      else srLoop useVariableAmount positionType entryPrice initialSize levels rest acc
    else acc

/-- The percentage-ladder loop completing the remaining DCA levels.  `i` is
the source's loop counter, `firstBase` is `basePercentages[0]`, and
`Math.pow 1.5 ·` is the abstracted parameter `pow15`. -/
def pctLoop (pow15 : ℚ → ℚ) (useVariableAmount useOptimization useReinforcement : Bool)
    (positionType : PositionType)
    (entryPrice initialSize firstBase volatilityMultiplier amountAdjustment multiplier : ℚ) :
    List ℚ → ℕ → List DCALevel → List DCALevel
  | [], _, acc => acc
  | p :: rest, i, acc =>
    let adjustedPercentage := p * volatilityMultiplier
    let dcaPrice := entryPrice * (1 + multiplier * adjustedPercentage)
    let amountMultiplier :=
      if useVariableAmount then
        let levelDepth := adjustedPercentage / firstBase
        pow15 levelDepth * amountAdjustment
      else (1 + (i : ℚ) * 0.5) * amountAdjustment
    let dcaAmount := initialSize * amountMultiplier
    let reinforcementThreshold :=
      if useReinforcement then
        some (dcaPrice * (if positionType = PositionType.LONG then 1.02 else 0.98))
      else none
    let partialTakeProfit :=
      if useOptimization then
        some (dcaPrice * (if positionType = PositionType.LONG then 1.03 else 0.97))
      else none
    pctLoop pow15 useVariableAmount useOptimization useReinforcement positionType entryPrice
      initialSize firstBase volatilityMultiplier amountAdjustment multiplier rest (i + 1)
      (acc ++ [⟨acc.length + 1, dcaPrice, dcaAmount, partialTakeProfit, reinforcementThreshold⟩])

/-- The advanced `calculateDCALevels`: optional volatility / market-condition /
price-action scaling of the base percentage ladder `[3%,7%,12%,18%,25%]`,
optional substitution of nearby support/resistance levels, completion with the
percentage ladder, then the final sort (price-descending for LONG,
price-ascending for SHORT) and renumbering `1 .. N`.  (The unused
`volatilityMultiplier` computed at the top of the source's optimization block
is dead code and not bound here.) -/
def calculateDCALevels (pow15 : ℚ → ℚ) (entryPrice : ℚ) (positionType : PositionType)
    (initialSize : ℚ) (levels : ℕ := 3) (volatility : ℚ := 0.01)
    (marketCondition : MarketConditionTag := MarketConditionTag.NEUTRAL)
    (options : Option DcaOptions := none) : List DCALevel :=
  let useOptimization := (options.bind (·.dcaOptimization)).getD false
  let useAdaptivePositioning := (options.bind (·.dcaAdaptivePositioning)).getD false
  let useVariableAmount := (options.bind (·.dcaVariableAmount)).getD false
  let useReinforcement := (options.bind (·.dcaReinforcement)).getD false
  let priceAction := (options.bind (·.priceAction)).getD PriceActionTag.UNKNOWN
  let supportResistance := (options.bind (·.supportResistance)).getD []
  let basePercentages : List ℚ := [0.03, 0.07, 0.12, 0.18, 0.25]
  let multiplier : ℚ := if positionType = PositionType.LONG then -1 else 1
  let optAdjusted : List ℚ × List DCALevel :=
    if useOptimization then
      let bp1 :=
        if marketCondition = MarketConditionTag.VOLATILE then basePercentages.map (· * 1.5)
        else if marketCondition = MarketConditionTag.BULLISH ∧
            positionType = PositionType.LONG then basePercentages.map (· * 0.8)
        else if marketCondition = MarketConditionTag.BEARISH ∧
            positionType = PositionType.SHORT then basePercentages.map (· * 0.8)
        else basePercentages
      let bp2 :=
        if priceAction = PriceActionTag.RANGING then bp1.map (· * 0.7)
        else if priceAction = PriceActionTag.TRENDING then bp1.map (· * 1.3)
        else bp1
      if supportResistance.length > 0 ∧ useAdaptivePositioning then
        let relevantLevels := jsSortStable
          (fun a b => if positionType = PositionType.LONG then decide (a ≤ b) else decide (b ≤ a))
          supportResistance
        let nearestLevels := (relevantLevels.filter (fun level =>
          let priceDiff := (level - entryPrice) / entryPrice
          (positionType = PositionType.LONG ∧ priceDiff < 0) ∨
          (positionType = PositionType.SHORT ∧ priceDiff > 0))).take
          (min levels relevantLevels.length)
        if nearestLevels.length > 0 then
          let bp3 := bp2.take (max 1 (levels - nearestLevels.length))
          (bp3, srLoop useVariableAmount positionType entryPrice initialSize levels
            nearestLevels [])
        else (bp2, [])
      else (bp2, [])
    else (basePercentages, [])
  let basePercentages := optAdjusted.1
  let result := optAdjusted.2
  let remainingLevels := levels - result.length
  let result :=
    if remainingLevels > 0 then
      let volatilityMultiplier := 1 + volatility * (if useOptimization then 25 else 15)
      let amountAdjustment : ℚ :=
        if marketCondition = MarketConditionTag.BULLISH ∧
            positionType = PositionType.LONG then (if useOptimization then 1.3 else 1.2)
        else if marketCondition = MarketConditionTag.BEARISH ∧
            positionType = PositionType.SHORT then (if useOptimization then 1.3 else 1.2)
        else if marketCondition = MarketConditionTag.VOLATILE then
          (if useOptimization then 0.7 else 0.8)
        else 1.0
      pctLoop pow15 useVariableAmount useOptimization useReinforcement positionType entryPrice
        initialSize (basePercentages.headD 0) volatilityMultiplier amountAdjustment multiplier
        (basePercentages.take (min remainingLevels basePercentages.length)) 0 result
    else result
  let sorted := jsSortStable
    (fun a b =>
      if positionType = PositionType.LONG then decide (b.price ≤ a.price)
      else decide (a.price ≤ b.price))
    result
  renumberLevels 1 sorted

/-! ### Test fixtures and shared lemmas -/

/-- A flat candle: open = high = low = close = `c`, time and volume `0`. -/
def flatCandle (c : ℚ) : Candle := ⟨0, c, c, c, c, 0⟩

/-- A minimal neutral `MultiTimeframeAnalysis` carrying only a confidence
value and no candle data. -/
def mkNeutralAnalysis (tf : String) (conf : ℚ) : MultiTimeframeAnalysis :=
  ⟨tf, "neutral", 50, "neutral", [], [], ⟨false, false, 0⟩, conf, none, none⟩

/-- A fixed instantiation of the abstracted `Math.sqrt` parameter, used for
concrete evaluations whose results do not depend on it. -/
def sqrtZero : ℚ → ℚ := fun _ => 0

lemma sum_winning_nonneg (trades : List BtTrade) :
    0 ≤ ((trades.filter (fun t => t.profit > 0)).map (·.profit)).sum := by
  apply List.sum_nonneg
  intro x hx
  simp only [List.mem_map, List.mem_filter, decide_eq_true_eq] at hx
  obtain ⟨t, ⟨_, ht⟩, rfl⟩ := hx
  exact le_of_lt ht

/-- The profit-factor formula as the specification states it: the ratio of
total profit to total loss, `+∞` when losses are zero and profits exist, `0`
when both are zero. -/
def profitFactorSpec (trades : List BtTrade) : PFVal :=
  let totalProfit := ((trades.filter (fun t => t.profit > 0)).map (·.profit)).sum
  let totalLoss := |((trades.filter (fun t => t.profit ≤ 0)).map (·.profit)).sum|
  if totalLoss = 0 ∧ totalProfit > 0 then PFVal.inf
  else if totalLoss = 0 ∧ totalProfit = 0 then PFVal.fin 0
  else PFVal.fin (totalProfit / totalLoss)

lemma pf_code_eq_spec (tp tl : ℚ) (htp : 0 ≤ tp) (htl : 0 ≤ tl) :
    (if tl > 0 then PFVal.fin (tp / tl) else if tp > 0 then PFVal.inf else PFVal.fin 0) =
    (if tl = 0 ∧ tp > 0 then PFVal.inf
     else if tl = 0 ∧ tp = 0 then PFVal.fin 0
     else PFVal.fin (tp / tl)) := by
  rcases eq_or_lt_of_le htl with h0 | hpos
  · by_cases htp0 : 0 < tp
    · simp [← h0, htp0]
    · have htp0' : tp = 0 := le_antisymm (not_lt.mp htp0) htp
      simp [← h0, htp0']
  · have h1 : ¬(tl = 0) := ne_of_gt hpos
    simp [hpos, h1, not_lt.mpr (le_of_lt hpos)]

/-- C3: for every backtest run, the reported profit factor equals
totalProfit/totalLoss over the returned trade ledger, `+∞` when totalLoss = 0
and totalProfit > 0, and `0` when both are zero. -/
theorem backtestStrategy_profitFactor_correct (candles : List Candle)
    (initialCapital leverage riskPerTrade : ℚ) :
    (backtestStrategy candles initialCapital leverage riskPerTrade).profitFactor =
      profitFactorSpec (backtestStrategy candles initialCapital leverage riskPerTrade).trades := by
  by_cases hlen : candles.length < 50
  · simp [backtestStrategy, hlen, zeroBacktestResult, profitFactorSpec]
  · simp only [backtestStrategy, if_neg hlen, profitFactorSpec]
    exact pf_code_eq_spec _ _ (sum_winning_nonneg _) (abs_nonneg _)

/-- C5: with fewer than 50 input candles, `backtestStrategy` returns the
all-zero result (zero trades and statistics, empty ledger, final capital
equal to the initial capital) rather than raising. -/
theorem backtestStrategy_short_input (candles : List Candle)
    (initialCapital leverage riskPerTrade : ℚ) (h : candles.length < 50) :
    (backtestStrategy candles initialCapital leverage riskPerTrade).totalTrades = 0 ∧
    (backtestStrategy candles initialCapital leverage riskPerTrade).winRate = 0 ∧
    (backtestStrategy candles initialCapital leverage riskPerTrade).totalReturn = 0 ∧
    (backtestStrategy candles initialCapital leverage riskPerTrade).maxDrawdown = 0 ∧
    (backtestStrategy candles initialCapital leverage riskPerTrade).netProfit = 0 ∧
    (backtestStrategy candles initialCapital leverage riskPerTrade).profitFactor = PFVal.fin 0 ∧
    (backtestStrategy candles initialCapital leverage riskPerTrade).trades = [] ∧
    (backtestStrategy candles initialCapital leverage riskPerTrade).finalCapital
      = initialCapital := by
  simp [backtestStrategy, h, zeroBacktestResult]

/-- C5 witness: the empty candle list satisfies the length guard and yields
the all-zero result. -/
theorem backtestStrategy_short_input_witness :
    ([] : List Candle).length < 50 ∧
    ((backtestStrategy [] 1000 5 2).totalTrades = 0 ∧
     (backtestStrategy [] 1000 5 2).winRate = 0 ∧
     (backtestStrategy [] 1000 5 2).totalReturn = 0 ∧
     (backtestStrategy [] 1000 5 2).maxDrawdown = 0 ∧
     (backtestStrategy [] 1000 5 2).netProfit = 0 ∧
     (backtestStrategy [] 1000 5 2).profitFactor = PFVal.fin 0 ∧
     (backtestStrategy [] 1000 5 2).trades = [] ∧
     (backtestStrategy [] 1000 5 2).finalCapital = 1000) :=
  ⟨by norm_num, backtestStrategy_short_input [] 1000 5 2 (by norm_num)⟩

lemma trueRangeList_cons_cons (a b : Candle) (bs : List Candle) :
    trueRangeList (a :: b :: bs) = trueRange a b :: trueRangeList (b :: bs) := rfl

lemma trueRangeList_drop (k : ℕ) (l : List Candle) :
    trueRangeList (l.drop k) = (trueRangeList l).drop k := by
  induction k generalizing l with
  | zero => simp
  | succ n ih =>
    cases l with
    | nil => simp [trueRangeList]
    | cons a as =>
      cases as with
      | nil => simp [trueRangeList]
      | cons b bs =>
        rw [trueRangeList_cons_cons]
        simpa using ih (b :: bs)

lemma trueRangeList_length (l : List Candle) :
    (trueRangeList l).length = l.length - 1 := by
  unfold trueRangeList
  rw [List.length_zipWith, List.length_tail]
  omega

/-- C8 (amended): the server copy of `calculateATR` returns the default `1`
when fewer than `period + 1` candles are supplied and otherwise the simple
mean of the last `period` true ranges; the client copy in
technicalAnalysis.ts instead returns `0` when fewer than `period` candles are
supplied and otherwise divides the sum of the available (at most `period`)
last true ranges by `period`. -/
theorem calculateATR_default_and_mean (candles : List Candle) (period : ℕ) :
    calculateATRserver candles period
      = (if candles.length < period + 1 then 1
         else (takeLastN period (trueRangeList candles)).sum / period) ∧
    calculateATRclient candles period
      = (if candles.length < period then 0
         else (takeLastN period (trueRangeList candles)).sum / period) := by
  constructor
  · unfold calculateATRserver
    split
    · rfl
    · rename_i h
      rw [trueRangeList_drop]
      unfold takeLastN
      rw [trueRangeList_length]
      have he : candles.length - (period + 1) = candles.length - 1 - period := by omega
      rw [he]
  · unfold calculateATRclient
    split
    · rfl
    · unfold jsSliceLast
      split
      · rename_i hp
        subst hp
        norm_num [takeLastN]
      · rfl

/-- C8 witness: at a 20-candle series with period 14 the server copy hits the
mean branch, and at a 5-candle series it hits the default-1 branch. -/
theorem calculateATR_default_and_mean_witness :
    (calculateATRserver (List.replicate 5 (flatCandle 100)) 14
      = (if (List.replicate 5 (flatCandle 100)).length < 14 + 1 then 1
         else (takeLastN 14 (trueRangeList (List.replicate 5 (flatCandle 100)))).sum / 14) ∧
     calculateATRclient (List.replicate 5 (flatCandle 100)) 14
      = (if (List.replicate 5 (flatCandle 100)).length < 14 then 0
         else (takeLastN 14 (trueRangeList (List.replicate 5 (flatCandle 100)))).sum / 14)) :=
  calculateATR_default_and_mean (List.replicate 5 (flatCandle 100)) 14

/-- C8 counterexample: on insufficient history (5 candles, period 14) the
client copy of `calculateATR` returns `0`, not the claimed documented default
`1`. -/
theorem calculateATRclient_short_returns_zero :
    calculateATRclient (List.replicate 5 (flatCandle 100)) 14 = 0 ∧
    calculateATRclient (List.replicate 5 (flatCandle 100)) 14 ≠ 1 := by
  have h : calculateATRclient (List.replicate 5 (flatCandle 100)) 14 = 0 := by
    simp [calculateATRclient]
  exact ⟨h, by rw [h]; norm_num⟩

lemma mem_jsInsert {α : Type} (le : α → α → Bool) (x a : α) (l : List α) :
    a ∈ jsInsert le x l ↔ a = x ∨ a ∈ l := by
  induction l with
  | nil => simp [jsInsert]
  | cons y ys ih =>
    by_cases h : le x y
    · rw [jsInsert, if_pos h]
      simp only [List.mem_cons]
    · rw [jsInsert, if_neg h]
      simp only [List.mem_cons, ih]
      tauto

lemma pairwise_jsInsert {α : Type} (le : α → α → Bool)
    (htot : ∀ a b, le a b = true ∨ le b a = true)
    (htr : ∀ a b c, le a b = true → le b c = true → le a c = true)
    (x : α) (l : List α) (h : l.Pairwise (fun a b => le a b = true)) :
    (jsInsert le x l).Pairwise (fun a b => le a b = true) := by
  induction l with
  | nil => simp [jsInsert]
  | cons y ys ih =>
    rcases List.pairwise_cons.mp h with ⟨hy, hys⟩
    by_cases hxy : le x y
    · rw [jsInsert, if_pos hxy]
      refine List.pairwise_cons.mpr ⟨?_, h⟩
      intro z hz
      rcases List.mem_cons.mp hz with rfl | hz'
      · exact hxy
      · exact htr x y z hxy (hy z hz')
    · rw [jsInsert, if_neg hxy]
      refine List.pairwise_cons.mpr ⟨?_, ih hys⟩
      intro z hz
      rcases (mem_jsInsert le x z ys).mp hz with heq | hz'
      · subst heq
        rcases htot z y with hx | hx
        · exact absurd hx hxy
        · exact hx
      · exact hy z hz'

lemma pairwise_jsSortStable {α : Type} (le : α → α → Bool)
    (htot : ∀ a b, le a b = true ∨ le b a = true)
    (htr : ∀ a b c, le a b = true → le b c = true → le a c = true)
    (l : List α) :
    (jsSortStable le l).Pairwise (fun a b => le a b = true) := by
  induction l with
  | nil => simp [jsSortStable]
  | cons x xs ih => exact pairwise_jsInsert le htot htr x _ ih

lemma map_price_renumberLevels (n : ℕ) (l : List DCALevel) :
    (renumberLevels n l).map (·.price) = l.map (·.price) := by
  induction l generalizing n with
  | nil => rfl
  | cons x xs ih => simp [renumberLevels, ih]

lemma map_level_renumberLevels (n : ℕ) (l : List DCALevel) :
    (renumberLevels n l).map (·.level) = List.range' n l.length := by
  induction l generalizing n with
  | nil => rfl
  | cons x xs ih => simp [renumberLevels, ih, List.range'_succ]

lemma length_renumberLevels (n : ℕ) (l : List DCALevel) :
    (renumberLevels n l).length = l.length := by
  induction l generalizing n with
  | nil => rfl
  | cons x xs ih => simp [renumberLevels, ih]

lemma length_jsInsert {α : Type} (le : α → α → Bool) (x : α) (l : List α) :
    (jsInsert le x l).length = l.length + 1 := by
  induction l with
  | nil => rfl
  | cons y ys ih =>
    by_cases h : le x y
    · simp [jsInsert, h]
    · simp [jsInsert, h, ih]

lemma length_jsSortStable {α : Type} (le : α → α → Bool) (l : List α) :
    (jsSortStable le l).length = l.length := by
  induction l with
  | nil => rfl
  | cons x xs ih => simp [jsSortStable, length_jsInsert, ih]

lemma dca_sorted_price_long (res : List DCALevel) :
    ((renumberLevels 1 (jsSortStable
      (fun a b =>
        if PositionType.LONG = PositionType.LONG then decide (b.price ≤ a.price)
        else decide (a.price ≤ b.price)) res)).map (·.price)).Pairwise (fun a b => b ≤ a) := by
  rw [map_price_renumberLevels, List.pairwise_map]
  have h := pairwise_jsSortStable
    (fun (a b : DCALevel) =>
      if PositionType.LONG = PositionType.LONG then decide (b.price ≤ a.price)
      else decide (a.price ≤ b.price))
    (by intro a b; simp; exact le_total b.price a.price)
    (by intro a b c; simp; intro h1 h2; exact le_trans h2 h1) res
  exact h.imp (by intro a b hb; simpa using hb)

lemma dca_sorted_price_short (res : List DCALevel) :
    ((renumberLevels 1 (jsSortStable
      (fun a b =>
        if PositionType.SHORT = PositionType.LONG then decide (b.price ≤ a.price)
        else decide (a.price ≤ b.price)) res)).map (·.price)).Pairwise (fun a b => a ≤ b) := by
  rw [map_price_renumberLevels, List.pairwise_map]
  have h := pairwise_jsSortStable
    (fun (a b : DCALevel) =>
      if PositionType.SHORT = PositionType.LONG then decide (b.price ≤ a.price)
      else decide (a.price ≤ b.price))
    (by intro a b; simp; exact le_total a.price b.price)
    (by intro a b c; simp; intro h1 h2; exact le_trans h1 h2) res
  exact h.imp (by intro a b hb; simpa using hb)

lemma dca_levels_renumbered (pt : PositionType) (res : List DCALevel) :
    (renumberLevels 1 (jsSortStable
      (fun a b =>
        if pt = PositionType.LONG then decide (b.price ≤ a.price)
        else decide (a.price ≤ b.price)) res)).map (·.level)
      = List.range' 1 (renumberLevels 1 (jsSortStable
          (fun a b =>
            if pt = PositionType.LONG then decide (b.price ≤ a.price)
            else decide (a.price ≤ b.price)) res)).length := by
  rw [map_level_renumberLevels, length_renumberLevels]

/-- C6: every ladder returned by the advanced `calculateDCALevels` is sorted
by price — descending (nearest trigger first) for LONG, ascending for SHORT —
and renumbered `1 .. N` after sorting; and concretely,
`calculateDCALevels(entryPrice=100, LONG, initialSize=1, levels=3,
volatility=0.01)` yields 3 levels with strictly decreasing prices, all below
100, numbered 1, 2, 3 in order. -/
theorem calculateDCALevels_sorted_and_renumbered
    (pow15 : ℚ → ℚ) (entryPrice : ℚ) (positionType : PositionType) (initialSize : ℚ)
    (levels : ℕ) (volatility : ℚ) (marketCondition : MarketConditionTag)
    (options : Option DcaOptions) :
    ((match positionType with
      | PositionType.LONG =>
        ((calculateDCALevels pow15 entryPrice positionType initialSize levels volatility
           marketCondition options).map (·.price)).Pairwise (fun a b => b ≤ a)
      | PositionType.SHORT =>
        ((calculateDCALevels pow15 entryPrice positionType initialSize levels volatility
           marketCondition options).map (·.price)).Pairwise (fun a b => a ≤ b)) ∧
     (calculateDCALevels pow15 entryPrice positionType initialSize levels volatility
        marketCondition options).map (·.level)
       = List.range' 1 (calculateDCALevels pow15 entryPrice positionType initialSize levels
           volatility marketCondition options).length) ∧
    ((calculateDCALevels (fun _ => 0) 100 PositionType.LONG 1 3 0.01
        MarketConditionTag.NEUTRAL none).map (·.price) = [96.55, 91.95, 86.2] ∧
     (calculateDCALevels (fun _ => 0) 100 PositionType.LONG 1 3 0.01
        MarketConditionTag.NEUTRAL none).map (·.level) = [1, 2, 3] ∧
     List.Chain' (fun a b => b < a) ((calculateDCALevels (fun _ => 0) 100 PositionType.LONG 1 3
        0.01 MarketConditionTag.NEUTRAL none).map (·.price)) ∧
     ∀ p ∈ (calculateDCALevels (fun _ => 0) 100 PositionType.LONG 1 3 0.01
        MarketConditionTag.NEUTRAL none).map (·.price), p < 100) := by
  refine ⟨⟨?_, ?_⟩, ?_⟩
  · cases positionType with
    | LONG =>
      simp only [calculateDCALevels]
      exact dca_sorted_price_long _
    | SHORT =>
      simp only [calculateDCALevels]
      exact dca_sorted_price_short _
  · simp only [calculateDCALevels]
    exact dca_levels_renumbered positionType _
  · have hr : (calculateDCALevels (fun _ => 0) 100 PositionType.LONG 1 3 0.01
        MarketConditionTag.NEUTRAL none)
      = [⟨1, 96.55, 1, none, none⟩, ⟨2, 91.95, 1.5, none, none⟩, ⟨3, 86.2, 2, none, none⟩] := by
      norm_num +decide [calculateDCALevels, pctLoop, jsSortStable, jsInsert, renumberLevels,
        Option.bind]
    rw [hr]
    norm_num [List.chain'_cons]

/-- The capital-ledger invariant: running capital equals the initial capital
plus the sum of the recorded trades' profits. -/
def ledgerClosed (init : ℚ) (s : BtState) : Prop :=
  s.capital = init + ((s.trades.map (·.profit)).sum)

lemma btExitPhase_ledger (init currentRsi currentPrice tstamp leverage : ℚ)
    (currentEma8 currentEma21 : Option ℚ) (s : BtState) (h : ledgerClosed init s) :
    ledgerClosed init (btExitPhase currentRsi currentEma8 currentEma21 currentPrice tstamp
      leverage s) := by
  unfold ledgerClosed at *
  unfold btExitPhase
  dsimp only
  repeat' split
  all_goals
    first
      | exact h
      | (simp only [List.map_append, List.sum_append, List.map_cons, List.map_nil,
           List.sum_cons, List.sum_nil]
         rw [h]
         ring)

lemma btEntryPhase_ledger (init currentRsi currentPrice tstamp riskPerTrade : ℚ)
    (currentEma8 currentEma21 : Option ℚ) (s : BtState) (h : ledgerClosed init s) :
    ledgerClosed init (btEntryPhase currentRsi currentEma8 currentEma21 currentPrice tstamp
      riskPerTrade s) := by
  unfold ledgerClosed at *
  unfold btEntryPhase
  dsimp only
  repeat' split
  all_goals exact h

lemma btForceClose_ledger (init leverage : ℚ) (candles : List Candle) (s : BtState)
    (h : ledgerClosed init s) : ledgerClosed init (btForceClose candles leverage s) := by
  unfold ledgerClosed at *
  unfold btForceClose
  dsimp only
  repeat' split
  all_goals
    first
      | exact h
      | (simp only [List.map_append, List.sum_append, List.map_cons, List.map_nil,
           List.sum_cons, List.sum_nil]
         rw [h]
         ring)

lemma foldl_preserves {α β : Type} (f : α → β → α) (P : α → Prop)
    (h : ∀ a b, P a → P (f a b)) : ∀ (l : List β) (a : α), P a → P (l.foldl f a) := by
  intro l
  induction l with
  | nil => intro a ha; exact ha
  | cons b bs ih => intro a ha; exact ih _ (h a b ha)

/-- C10: for every backtest run on at least 50 candles, the capital accounting
is closed by the trade ledger: `finalCapital = initialCapital + Σ profit` over
the returned trades, and `netProfit = finalCapital − initialCapital`. -/
theorem backtestStrategy_ledger_closed (candles : List Candle)
    (initialCapital leverage riskPerTrade : ℚ) (h : 50 ≤ candles.length) :
    (backtestStrategy candles initialCapital leverage riskPerTrade).finalCapital
      = initialCapital +
        (((backtestStrategy candles initialCapital leverage riskPerTrade).trades.map
          (·.profit)).sum) ∧
    (backtestStrategy candles initialCapital leverage riskPerTrade).netProfit
      = (backtestStrategy candles initialCapital leverage riskPerTrade).finalCapital
        - initialCapital := by
  have hlen : ¬ candles.length < 50 := not_lt.mpr h
  have hinv : ledgerClosed initialCapital (btForceClose candles leverage
      ((List.range' 50 (candles.length - 51)).foldl (btStep candles leverage riskPerTrade)
        ⟨initialCapital, initialCapital, 0, [], false, PositionType.LONG, 0, 0, 0⟩)) := by
    apply btForceClose_ledger
    apply foldl_preserves
    · intro a b ha
      unfold btStep
      apply btEntryPhase_ledger
      apply btExitPhase_ledger
      exact ha
    · unfold ledgerClosed
      simp
  unfold ledgerClosed at hinv
  simp only [backtestStrategy, if_neg hlen]
  exact ⟨hinv, trivial⟩

/-- C10 witness: a 50-candle flat series satisfies the length bound and the
ledger identities. -/
theorem backtestStrategy_ledger_closed_witness :
    50 ≤ (List.replicate 50 (flatCandle 100)).length ∧
    ((backtestStrategy (List.replicate 50 (flatCandle 100)) 1000 5 2).finalCapital
      = 1000 +
        (((backtestStrategy (List.replicate 50 (flatCandle 100)) 1000 5 2).trades.map
          (·.profit)).sum) ∧
     (backtestStrategy (List.replicate 50 (flatCandle 100)) 1000 5 2).netProfit
      = (backtestStrategy (List.replicate 50 (flatCandle 100)) 1000 5 2).finalCapital
        - 1000) :=
  ⟨by simp, backtestStrategy_ledger_closed (List.replicate 50 (flatCandle 100)) 1000 5 2
    (by simp)⟩

lemma zipWith_replicate_same {α β γ : Type} (f : α → β → γ) (n m : ℕ) (a : α) (b : β) :
    List.zipWith f (List.replicate n a) (List.replicate m b)
      = List.replicate (min n m) (f a b) := by
  induction n generalizing m with
  | zero => simp
  | succ k ih =>
    cases m with
    | zero => simp
    | succ j =>
      simp only [List.replicate_succ, List.zipWith_cons_cons, ih]
      rw [Nat.succ_min_succ]
      rfl

lemma priceChanges_replicate (c : ℚ) (n : ℕ) :
    priceChanges (List.replicate n c) = List.replicate (n - 1) 0 := by
  unfold priceChanges
  cases n with
  | zero => simp
  | succ k =>
    rw [List.replicate_succ, List.tail_cons, ← List.replicate_succ, zipWith_replicate_same]
    rw [min_eq_right (Nat.le_succ k)]
    simp

lemma rsiRec_zeros (period m : ℕ) :
    rsiRec period 0 0 (List.replicate m ((0 : ℚ), (0 : ℚ))) = List.replicate m 100 := by
  induction m with
  | zero => rfl
  | succ k ih =>
    rw [List.replicate_succ, rsiRec]
    simp only [zero_mul, add_zero, zero_div, zero_add, mul_zero]
    have h100 : rsiStepVal 0 0 = 100 := by simp [rsiStepVal]
    rw [h100, ih, List.replicate_succ]

/-- On a series whose closes are all `c` and whose length is at least 15, the
client `calculateRSI` with period 14 outputs 14 undefined entries followed by
the value 100 at every computed index (the all-zero gains and losses route
every step through the `avgLoss = 0` branch). -/
lemma calculateRSI_const (candles : List Candle) (c : ℚ)
    (hc : candles.map (·.close) = List.replicate candles.length c)
    (h15 : 15 ≤ candles.length) :
    calculateRSI candles 14
      = List.replicate 14 (none : Option ℚ)
        ++ List.replicate (candles.length - 14) (some 100) := by
  unfold calculateRSI
  rw [if_neg (by omega)]
  rw [hc]
  dsimp only
  rw [priceChanges_replicate]
  have hmap0 : (List.replicate (candles.length - 1) (0 : ℚ)).map
      (fun ch => if ch > 0 then ch else 0) = List.replicate (candles.length - 1) 0 := by
    rw [List.map_replicate]; norm_num
  have hmap0' : (List.replicate (candles.length - 1) (0 : ℚ)).map
      (fun ch => if ch < 0 then |ch| else 0) = List.replicate (candles.length - 1) 0 := by
    rw [List.map_replicate]; norm_num
  rw [hmap0, hmap0']
  rw [List.take_replicate, List.sum_replicate, List.drop_replicate]
  simp only [smul_zero, zero_div]
  rw [show ((List.replicate (candles.length - 1 - 14) (0:ℚ)).zip
      (List.replicate (candles.length - 1 - 14) (0:ℚ)))
      = List.replicate (candles.length - 1 - 14) ((0:ℚ), (0:ℚ)) by
    rw [List.zip, zipWith_replicate_same, min_self]]
  rw [rsiRec_zeros]
  rw [show rsiStepVal 0 0 = 100 by simp [rsiStepVal]]
  rw [show (100 : ℚ) :: List.replicate (candles.length - 1 - 14) 100
      = List.replicate (candles.length - 14) 100 by
    rw [show candles.length - 14 = (candles.length - 1 - 14) + 1 by omega,
      List.replicate_succ]]
  rw [List.map_replicate]

/-- C1 (amended): for every candle series with all closes equal and length at
least 15, `calculateRSI(candles, 14)` is exactly `100` — not `50` — at the
first computed index: the both-zero gain/loss edge case is routed through the
`avgLoss = 0` branch. -/
theorem calculateRSI_const_first_computed (candles : List Candle) (c : ℚ)
    (hc : ∀ x ∈ candles, x.close = c) (h15 : 15 ≤ candles.length) :
    (calculateRSI candles 14)[14]? = some (some 100) := by
  have hmap0 : candles.map (·.close)
      = List.replicate (candles.map (·.close)).length c := by
    apply List.eq_replicate_of_mem
    intro b hb
    rcases List.mem_map.mp hb with ⟨x, hx, rfl⟩
    exact hc x hx
  have hmap : candles.map (·.close) = List.replicate candles.length c := by
    rw [hmap0, List.length_map]
  rw [calculateRSI_const candles c hmap h15]
  rw [List.getElem?_append_right (by simp)]
  simp only [List.length_replicate]
  rw [show (14 : ℕ) - 14 = 0 from rfl]
  rw [show candles.length - 14 = (candles.length - 15) + 1 by omega]
  rw [List.replicate_succ]
  rw [List.getElem?_cons_zero]

/-- C1 witness: a 15-candle constant series at close 100 satisfies the
hypotheses, and its RSI at the first computed index is 100. -/
theorem calculateRSI_const_first_computed_witness :
    (∀ x ∈ List.replicate 15 (flatCandle 100), x.close = 100) ∧
    15 ≤ (List.replicate 15 (flatCandle 100)).length ∧
    (calculateRSI (List.replicate 15 (flatCandle 100)) 14)[14]? = some (some 100) :=
  ⟨by intro x hx; rw [List.eq_of_mem_replicate hx]; rfl,
   by simp,
   calculateRSI_const_first_computed (List.replicate 15 (flatCandle 100)) 100
     (by intro x hx; rw [List.eq_of_mem_replicate hx]; rfl) (by simp)⟩

/-- C1 counterexample: on the constant 15-candle series at close 100 — length
`period + 1` — the RSI at the first computed index is `100`, not the claimed
neutral `50`. -/
theorem calculateRSI_const_not_fifty :
    (calculateRSI (List.replicate 15 (flatCandle 100)) 14)[14]? = some (some 100) ∧
    (calculateRSI (List.replicate 15 (flatCandle 100)) 14)[14]? ≠ some (some 50) := by
  have h : (calculateRSI (List.replicate 15 (flatCandle 100)) 14)[14]? = some (some 100) := by
    rw [calculateRSI_const (List.replicate 15 (flatCandle 100)) 100 (by simp [flatCandle])
      (by simp)]
    rfl
  refine ⟨h, ?_⟩
  rw [h]
  intro hcon
  have : (100 : ℚ) = 50 := by
    injection hcon with h1
    injection h1
  norm_num at this

lemma emaFrom_const (k c : ℚ) (m : ℕ) :
    emaFrom k c (List.replicate m c) = List.replicate m c := by
  induction m with
  | zero => rfl
  | succ j ih =>
    rw [List.replicate_succ, emaFrom]
    simp only [sub_self, zero_mul, zero_add]
    rw [ih]

lemma calculateEMA_const_last (c : ℚ) (n p : ℕ) (hp : 1 ≤ p) (hn : p ≤ n) :
    lastElem (calculateEMA (List.replicate n c) p) = some c := by
  unfold calculateEMA lastElem
  dsimp only
  rw [List.take_replicate, List.drop_replicate, min_eq_left hn, List.sum_replicate]
  have hp0 : (p : ℚ) ≠ 0 := Nat.cast_ne_zero.mpr (by omega)
  have hsma : (p • c) / (p : ℚ) = c := by
    rw [nsmul_eq_mul]
    exact mul_div_cancel_left₀ c hp0
  rw [hsma, emaFrom_const, List.map_replicate]
  rw [List.getLast?_append]
  have hlast : (some c :: List.replicate (n - p) (some c)).getLast? = some (some c) := by
    rw [show some c :: List.replicate (n - p) (some c)
        = List.replicate ((n - p) + 1) (some c) from (List.replicate_succ _ _).symm]
    rw [List.getLast?_replicate]
    simp
  rw [hlast]
  rfl

lemma btExitPhase_skip (currentRsi currentPrice tstamp leverage : ℚ)
    (currentEma8 currentEma21 : Option ℚ) (s : BtState) (hs : s.inPosition = false) :
    btExitPhase currentRsi currentEma8 currentEma21 currentPrice tstamp leverage s = s := by
  unfold btExitPhase
  rw [if_neg (by simp [hs])]

lemma btEntryPhase_flat (c currentPrice tstamp riskPerTrade : ℚ) (_hc : c ≠ 0) (s : BtState)
    (hs : s.inPosition = false) :
    btEntryPhase 100 (some c) (some c) currentPrice tstamp riskPerTrade s = s := by
  unfold btEntryPhase
  rw [if_neg (by simp [hs])]
  dsimp only
  norm_num [optLt, optGt, lt_irrefl]

lemma foldl_fixed {α β : Type} (f : α → β → α) (a : α) (l : List β)
    (h : ∀ b ∈ l, f a b = a) : l.foldl f a = a := by
  induction l with
  | nil => rfl
  | cons b bs ih =>
    rw [List.foldl_cons, h b (List.mem_cons_self b bs)]
    exact ih (fun x hx => h x (List.mem_cons_of_mem b hx))

lemma btStep_flat (c : ℚ) (hc : c ≠ 0) (leverage riskPerTrade : ℚ) (s : BtState)
    (hs : s.inPosition = false) (i : ℕ) (hi : 50 ≤ i) (hi2 : i ≤ 58) :
    btStep (List.replicate 60 (flatCandle c)) leverage riskPerTrade s i = s := by
  unfold btStep
  dsimp only
  have hwin : ((List.replicate 60 (flatCandle c)).drop (i - 50)).take 51
      = List.replicate 51 (flatCandle c) := by
    rw [List.drop_replicate, List.take_replicate, min_eq_left (by omega)]
  rw [hwin]
  have hcp : (List.replicate 51 (flatCandle c)).map (·.close) = List.replicate 51 c := by
    simp [flatCandle]
  have hrsi := calculateRSI_const (List.replicate 51 (flatCandle c)) c
    (by rw [hcp, List.length_replicate]) (by simp)
  rw [List.length_replicate] at hrsi
  rw [hrsi, hcp]
  have hlast : lastElem (List.replicate 14 (none : Option ℚ)
      ++ List.replicate (51 - 14) (some (100 : ℚ))) = some 100 := by
    unfold lastElem
    rw [List.getLast?_append, List.getLast?_replicate]
    norm_num
  rw [hlast]
  have hor : jsOrQ (some (100 : ℚ)) 50 = 100 := by norm_num [jsOrQ]
  rw [hor]
  rw [calculateEMA_const_last c 51 8 (by norm_num) (by norm_num)]
  rw [calculateEMA_const_last c 51 21 (by norm_num) (by norm_num)]
  rw [btExitPhase_skip _ _ _ _ _ _ _ hs]
  exact btEntryPhase_flat c _ _ _ hc s hs

/-- C4: on a flat 60-candle series (all OHLC equal to one positive constant)
the backtester records no trades and returns the initial capital unchanged,
for any leverage and risk-per-trade. -/
theorem backtestStrategy_flat_no_trades (c : ℚ) (hc : 0 < c)
    (initialCapital leverage riskPerTrade : ℚ) :
    (backtestStrategy (List.replicate 60 (flatCandle c)) initialCapital leverage
      riskPerTrade).totalTrades = 0 ∧
    (backtestStrategy (List.replicate 60 (flatCandle c)) initialCapital leverage
      riskPerTrade).finalCapital = initialCapital := by
  have hlen : ¬ (List.replicate 60 (flatCandle c)).length < 50 := by simp
  have hfold : (List.range' 50 ((List.replicate 60 (flatCandle c)).length - 51)).foldl
      (btStep (List.replicate 60 (flatCandle c)) leverage riskPerTrade)
      (⟨initialCapital, initialCapital, 0, [], false, PositionType.LONG, 0, 0, 0⟩ : BtState)
      = ⟨initialCapital, initialCapital, 0, [], false, PositionType.LONG, 0, 0, 0⟩ := by
    rw [List.length_replicate]
    apply foldl_fixed
    intro i hi
    have hmem := List.mem_range'_1.mp hi
    exact btStep_flat c (ne_of_gt hc) leverage riskPerTrade _ rfl i hmem.1 (by omega)
  have hclose : btForceClose (List.replicate 60 (flatCandle c)) leverage
      (⟨initialCapital, initialCapital, 0, [], false, PositionType.LONG, 0, 0, 0⟩ : BtState)
      = ⟨initialCapital, initialCapital, 0, [], false, PositionType.LONG, 0, 0, 0⟩ := by
    unfold btForceClose
    rw [if_neg (by simp)]
  simp only [backtestStrategy, if_neg hlen, hfold, hclose]
  simp

/-- C4 witness: the flat series at price 100 with capital 1000, leverage 5 and
risk 2% satisfies the positivity hypothesis and yields no trades. -/
theorem backtestStrategy_flat_no_trades_witness :
    (0 : ℚ) < 100 ∧
    ((backtestStrategy (List.replicate 60 (flatCandle 100)) 1000 5 2).totalTrades = 0 ∧
     (backtestStrategy (List.replicate 60 (flatCandle 100)) 1000 5 2).finalCapital = 1000) :=
  ⟨by norm_num, backtestStrategy_flat_no_trades 100 (by norm_num) 1000 5 2⟩

/-- C7: with a single timeframe `1w` (table weight 1.0) at confidence 0.9 and
no attached candle data, variant A's fused decision confidence is exactly
0.9; and the computation is deterministic in its inputs. -/
theorem generateTradingDecisionA_single_timeframe_confidence (jsSqrt : ℚ → ℚ) :
    (generateTradingDecisionA jsSqrt [("1w", mkNeutralAnalysis "1w" 0.9)] 100 10 50).map
      (·.confidence) = some 0.9 ∧
    (∀ (analyses : List (String × MultiTimeframeAnalysis)) (p minL maxL : ℚ),
      generateTradingDecisionA jsSqrt analyses p minL maxL
        = generateTradingDecisionA jsSqrt analyses p minL maxL) := by
  refine ⟨?_, fun _ _ _ _ => rfl⟩
  norm_num +decide [generateTradingDecisionA, fuseStep, jsLookup, mkNeutralAnalysis,
    timeframeWeightsA, jsRound, List.find?, abs_of_pos, abs_of_nonneg]

/-- C9: the two fusion-engine variants diverge: on the same single-`15m`
analyses map and price, called with their default leverage bounds, variant A
suggests leverage 46 and variant B suggests 15; their `15m`/`1h` weight-table
entries and default maximum leverage bounds differ (0.5 vs 0.15, 0.5 vs 0.3,
50x vs 15x). -/
theorem generateTradingDecision_variants_diverge :
    (generateTradingDecisionA sqrtZero [("15m", mkNeutralAnalysis "15m" 0.9)] 100
      defaultMinLeverageA defaultMaxLeverageA).map (·.leverageSuggestion) = some 46 ∧
    (generateTradingDecisionB [("15m", mkNeutralAnalysis "15m" 0.9)] 100
      defaultMinLeverageB defaultMaxLeverageB).map (·.leverageSuggestion) = some 15 ∧
    (46 : ℚ) ≠ 15 ∧
    timeframeWeightsA "15m" = 0.5 ∧ timeframeWeightsB "15m" = 0.15 ∧
    timeframeWeightsA "1h" = 0.5 ∧ timeframeWeightsB "1h" = 0.3 ∧
    defaultMaxLeverageA = 50 ∧ defaultMaxLeverageB = 15 := by
  refine ⟨?_, ?_, by norm_num, ?_, ?_, ?_, ?_, rfl, rfl⟩
  · norm_num +decide [generateTradingDecisionA, fuseStep, jsLookup, mkNeutralAnalysis,
      timeframeWeightsA, jsRound, List.find?, abs_of_pos, abs_of_nonneg,
      defaultMinLeverageA, defaultMaxLeverageA, Int.floor_eq_iff]
  · norm_num +decide [generateTradingDecisionB, fuseStep, jsLookup, mkNeutralAnalysis,
      timeframeWeightsB, jsRound, List.find?, abs_of_pos, abs_of_nonneg,
      defaultMinLeverageB, defaultMaxLeverageB, Int.floor_eq_iff]
  · norm_num +decide [timeframeWeightsA]
  · norm_num +decide [timeframeWeightsB]
  · norm_num +decide [timeframeWeightsA]
  · norm_num +decide [timeframeWeightsB]

/-- C2 counterexample: with an analyses map whose single `1w` analysis has the
out-of-range confidence 2 (and no candle data), variant A called with bounds
`[10, 50]` suggests leverage 90, outside the claimed interval. -/
theorem generateTradingDecisionA_leverage_out_of_bounds :
    (generateTradingDecisionA sqrtZero [("1w", mkNeutralAnalysis "1w" 2)] 100 10 50).map
      (·.leverageSuggestion) = some 90 ∧
    ¬ ((90 : ℚ) ≤ 50) := by
  refine ⟨?_, by norm_num⟩
  norm_num +decide [generateTradingDecisionA, fuseStep, jsLookup, mkNeutralAnalysis,
    timeframeWeightsA, jsRound, List.find?, abs_of_pos, abs_of_nonneg, Int.floor_eq_iff]

lemma timeframeWeightsA_pos (tf : String) : 0 < timeframeWeightsA tf := by
  unfold timeframeWeightsA
  repeat' split
  all_goals norm_num

lemma lookup_candleData_none (analyses : List (String × MultiTimeframeAnalysis))
    (h : ∀ e ∈ analyses, e.2.candleData = none) (k : String) :
    (jsLookup analyses k).bind (·.candleData) = none := by
  unfold jsLookup
  cases hf : analyses.find? (fun p => p.1 = k) with
  | none => rfl
  | some p =>
    have hp := List.mem_of_find?_eq_some hf
    simp [h p hp]

lemma fuse_fold_bound (weights : String → ℚ) (hw : ∀ tf, 0 < weights tf)
    (analyses : List (String × MultiTimeframeAnalysis))
    (hnone : ∀ k, (jsLookup analyses k).bind (·.candleData) = none) :
    ∀ (entries : List (String × MultiTimeframeAnalysis)) (acc : FuseAcc),
      (∀ e ∈ entries, 0 ≤ e.2.confidence ∧ e.2.confidence ≤ 1) →
      |acc.weightedConfidence| ≤ acc.totalWeight / 2 →
      |(entries.foldl (fuseStep weights analyses) acc).weightedConfidence|
        ≤ (entries.foldl (fuseStep weights analyses) acc).totalWeight / 2 := by
  intro entries
  induction entries with
  | nil => intro acc _ h; exact h
  | cons e es ih =>
    intro acc hent hacc
    rw [List.foldl_cons]
    apply ih _ (fun x hx => hent x (List.mem_cons_of_mem _ hx))
    unfold fuseStep
    dsimp only
    rw [hnone e.1]
    dsimp only
    have hconf := hent e (List.mem_cons_self e es)
    have hwpos := hw e.1
    have h1 : |e.2.confidence - 0.5| ≤ 1/2 := by
      rw [abs_le]
      constructor <;> [linarith [hconf.1]; linarith [hconf.2]]
    calc |acc.weightedConfidence + (e.2.confidence - 0.5) * weights e.1|
        ≤ |acc.weightedConfidence| + |(e.2.confidence - 0.5) * weights e.1| := abs_add _ _
      _ ≤ acc.totalWeight / 2 + (1/2) * weights e.1 := by
          apply add_le_add hacc
          rw [abs_mul, abs_of_pos hwpos, mul_comm]
          calc weights e.1 * |e.2.confidence - 0.5|
              ≤ weights e.1 * (1/2) := mul_le_mul_of_nonneg_left h1 (le_of_lt hwpos)
            _ = 1/2 * weights e.1 := by ring
      _ = (acc.totalWeight + weights e.1) / 2 := by ring

lemma finalConfidence_bounds (wc tw : ℚ) (h : |wc| ≤ tw / 2) :
    0 ≤ wc / tw + 0.5 ∧ wc / tw + 0.5 ≤ 1 := by
  by_cases htw : tw = 0
  · subst htw
    norm_num [div_zero]
  · have htw0 : 0 ≤ tw := by
      have := le_trans (abs_nonneg wc) h
      linarith
    have htw' : 0 < tw := lt_of_le_of_ne htw0 (Ne.symm htw)
    rcases abs_le.mp h with ⟨hlo, hhi⟩
    constructor
    · have hq : -(1/2 : ℚ) ≤ wc / tw := (le_div_iff₀ htw').mpr (by linarith)
      linarith
    · have hq : wc / tw ≤ (1/2 : ℚ) := (div_le_iff₀ htw').mpr (by linarith)
      linarith

lemma jsRound_int_bounds (a b : ℤ) (x : ℚ) (h1 : (a : ℚ) ≤ x) (h2 : x ≤ (b : ℚ)) :
    (a : ℚ) ≤ (jsRound x : ℚ) ∧ (jsRound x : ℚ) ≤ (b : ℚ) := by
  unfold jsRound
  have hhalf : (⌊(1 : ℚ)/2⌋ : ℤ) = 0 := by norm_num
  constructor
  · have hfl : a ≤ ⌊x + 1/2⌋ := by
      have := Int.floor_le_floor (α := ℚ) (show (a : ℚ) + 1/2 ≤ x + 1/2 by linarith)
      rwa [Int.floor_int_add, hhalf, add_zero] at this
    exact_mod_cast hfl
  · have hfl : ⌊x + 1/2⌋ ≤ b := by
      have := Int.floor_le_floor (α := ℚ) (show x + 1/2 ≤ (b : ℚ) + 1/2 by linarith)
      rwa [Int.floor_int_add, hhalf, add_zero] at this
    exact_mod_cast hfl

lemma leverage_bound_of_fc (minL maxL : ℤ) (hml : minL ≤ maxL) (fc : ℚ)
    (h0 : 0 ≤ fc) (h1 : fc ≤ 1) (sig : Signal) :
    (minL : ℚ) ≤ (jsRound ((minL : ℚ) + ((maxL : ℚ) - (minL : ℚ)) *
        (if sig = Signal.BUY then fc else 1 - fc)) : ℚ) ∧
    (jsRound ((minL : ℚ) + ((maxL : ℚ) - (minL : ℚ)) *
        (if sig = Signal.BUY then fc else 1 - fc)) : ℚ) ≤ (maxL : ℚ) := by
  have hle : (minL : ℚ) ≤ (maxL : ℚ) := by exact_mod_cast hml
  have hsub : (0 : ℚ) ≤ (maxL : ℚ) - (minL : ℚ) := by linarith
  have habs : 0 ≤ (if sig = Signal.BUY then fc else 1 - fc) ∧
      (if sig = Signal.BUY then fc else 1 - fc) ≤ 1 := by
    split <;> constructor <;> linarith
  apply jsRound_int_bounds
  · nlinarith [habs.1, habs.2]
  · nlinarith [habs.1, habs.2]

/-- C2 (amended): when every analysis in the map has confidence in [0,1] and
carries no candle data (so the unclamped fused confidence stays in [0,1]) and
the leverage bounds are integers with `minLeverage ≤ maxLeverage`, any
decision variant A returns has its suggested leverage within
`[minLeverage, maxLeverage]`; with an out-of-range confidence the source's
missing clamp makes the suggestion leave the interval (see the
counterexample). -/
theorem generateTradingDecisionA_leverage_in_bounds (jsSqrt : ℚ → ℚ)
    (analyses : List (String × MultiTimeframeAnalysis)) (currentPrice : ℚ)
    (minLeverage maxLeverage : ℤ)
    (hcon : ∀ e ∈ analyses,
      0 ≤ e.2.confidence ∧ e.2.confidence ≤ 1 ∧ e.2.candleData = none)
    (hml : minLeverage ≤ maxLeverage) :
    ∀ d ∈ generateTradingDecisionA jsSqrt analyses currentPrice (minLeverage : ℚ)
        (maxLeverage : ℚ),
      (minLeverage : ℚ) ≤ d.leverageSuggestion ∧
        d.leverageSuggestion ≤ (maxLeverage : ℚ) := by
  intro d hd
  have hnone : ∀ k, (jsLookup analyses k).bind (·.candleData) = none :=
    lookup_candleData_none analyses (fun e he => (hcon e he).2.2)
  have hbound := fuse_fold_bound timeframeWeightsA timeframeWeightsA_pos analyses hnone
    analyses ⟨0, 0, "", 0, []⟩ (fun e he => ⟨(hcon e he).1, (hcon e he).2.1⟩) (by norm_num)
  have hfc := finalConfidence_bounds _ _ hbound
  unfold generateTradingDecisionA at hd
  dsimp only at hd
  rcases hdom : jsLookup (analyses.foldl (fuseStep timeframeWeightsA analyses)
      ⟨0, 0, "", 0, []⟩).updated
      (analyses.foldl (fuseStep timeframeWeightsA analyses) ⟨0, 0, "", 0, []⟩).dominantTimeframe
    with _ | da
  · rw [hdom] at hd
    simp at hd
  · rw [hdom] at hd
    simp only [Option.mem_def, Option.some_inj] at hd
    subst hd
    dsimp only
    exact leverage_bound_of_fc minLeverage maxLeverage hml _ hfc.1 hfc.2 _

/-- C2 witness: a single in-range analysis (`1w`, confidence 0.9, no candle
data) with integer bounds 10 ≤ 50 satisfies the hypotheses, and the returned
leverage lies within the interval. -/
theorem generateTradingDecisionA_leverage_in_bounds_witness :
    (∀ e ∈ [("1w", mkNeutralAnalysis "1w" 0.9)],
      0 ≤ e.2.confidence ∧ e.2.confidence ≤ 1 ∧ e.2.candleData = none) ∧
    (10 : ℤ) ≤ 50 ∧
    (∀ d ∈ generateTradingDecisionA sqrtZero [("1w", mkNeutralAnalysis "1w" 0.9)] 100
        ((10 : ℤ) : ℚ) ((50 : ℤ) : ℚ),
      ((10 : ℤ) : ℚ) ≤ d.leverageSuggestion ∧ d.leverageSuggestion ≤ ((50 : ℤ) : ℚ)) :=
  ⟨by
    intro e he
    simp only [List.mem_singleton] at he
    subst he
    norm_num [mkNeutralAnalysis],
   by norm_num,
   generateTradingDecisionA_leverage_in_bounds sqrtZero [("1w", mkNeutralAnalysis "1w" 0.9)]
     100 10 50
     (by
       intro e he
       simp only [List.mem_singleton] at he
       subst he
       norm_num [mkNeutralAnalysis])
     (by norm_num)⟩
